import Mathlib

/-!
Verification development for the ragc AGC emulator core.

Shallow embedding of the Rust sources into Lean: machine words (u8, u16,
u32) are modelled as Nat with explicit masking exactly where the source
masks, arrays are modelled as functions Nat to Nat with pointwise update,
fallible paths (panics, decode errors) are modelled with Option.
-/

namespace Ragc

/-- updf is pointwise function update, modelling an array store. -/
def updf (f : Nat → Nat) (i v : Nat) : Nat → Nat :=
  fun j => if j = i then v else f j

/-- updf2 is pointwise update of a two-index function, modelling a store
into a two-dimensional array. -/
def updf2 (f : Nat → Nat → Nat) (i j v : Nat) : Nat → Nat → Nat :=
  fun a b => if a = i ∧ b = j then v else f a b

/-! Word utilities, from ragc-core/src/utils.rs. -/

/-- adjust_overflow from utils.rs: AGC overflow adjustment on a 16-bit word. -/
def adjust_overflow (input : Nat) : Nat :=
  if input &&& 0xC000 = 0x8000 then input ||| 0xC000
  else if input &&& 0xC000 = 0x4000 then input &&& 0x3FFF
  else input

/-- extend_sign_bits from utils.rs: extend bit 14 of a 15-bit value into bit 15. -/
def extend_sign_bits (value : Nat) : Nat :=
  if value &&& 0x4000 ≠ 0 then value ||| 0x8000 else value &&& 0x7FFF

/-- add_s15 from utils.rs: 15-bit addition with end-around carry.
The source computes in u32, so the sum never wraps before masking. -/
def add_s15 (op1 op2 : Nat) : Nat :=
  let sum := op1 + op2
  let sum := if sum &&& 0x8000 ≠ 0 then sum + 1 else sum
  sum &&& 0x7FFF

/-- add_s16 from utils.rs: 16-bit addition with end-around carry. -/
def add_s16 (left right : Nat) : Nat :=
  let total := left + right
  let total := if total &&& 0xFFFF0000 ≠ 0 then total + 1 else total
  total &&& 0xFFFF

/-! DSKY wire codec, from dsky-protocol/src/agc.rs.  A packet is four
bytes, modelled as a 4-tuple of Nat.  The u8 casts in the source never
truncate because every operand is already masked below 0x40. -/

/-- generate_dsky_packet from agc.rs: serialize an (address, value) pair. -/
def generate_dsky_packet (addr : Nat) (data_val : Nat) : Nat × Nat × Nat × Nat :=
  let header := 0x0 ||| ((addr >>> 3) &&& 0x1F)
  let upper_bits := 0x40 ||| ((addr &&& 0x7) <<< 3) ||| ((data_val >>> 12) &&& 0x7)
  let middle := 0x80 ||| ((data_val >>> 6) &&& 0x3F)
  let lower := 0xC0 ||| (data_val &&& 0x3F)
  (header, upper_bits, middle, lower)

/-- parse_dsky_packet from agc.rs: parse four bytes back into an
(address, value) pair; the framing-tag check can fail, hence Option.
The length match in the source is trivially 4 for a 4-byte array. -/
def parse_dsky_packet (packet : Nat × Nat × Nat × Nat) : Option (Nat × Nat) :=
  let (b0, b1, b2, b3) := packet
  if b0 &&& 0xC0 = 0x00 ∧ b1 &&& 0xC0 = 0x40 ∧ b2 &&& 0xC0 = 0x80 ∧ b3 &&& 0xC0 = 0xC0 then
    let combined := ((b1 &&& 0x07) <<< 12) ||| ((b2 &&& 0x3F) <<< 6) ||| (b3 &&& 0x3F)
    let addr := ((b0 &&& 0x3F) <<< 3) ||| ((b1 >>> 3) &&& 0x07)
    some (addr, combined)
  else
    none

/-! Instruction descriptor and decoder, from ragc-core/src/instructions/mod.rs
and ragc-core/src/decoder.rs. -/

/-- Mnemonic from instructions/mod.rs; not every mnemonic is implemented
by the execution engine. -/
inductive Mnemonic where
  | AD | ADS | AUG | BZF | BZMF | CA | CS | CCS | DAS | DCA | DCS | DIM | DV
  | DXCH | EDRUPT | EXTEND | INCR | INDEX | INHINT | LXCH | MASK | MP | MSU
  | QXCH | RAND | READ | RELINT | RESUME | ROR | RXOR | SU | TC | TCF | TS
  | WAND | WOR | WRITE | XCH | INVALID
  deriving DecidableEq, Repr

/-- Instructions from instructions/mod.rs: a decoded AGC instruction. -/
structure Instructions where
  pc : Nat
  mnem : Mnemonic
  data : Nat
  extrabits : Option Nat
  mct : Nat
  deriving Repr

/-- get_opcode: the 3-bit primary opcode, bits 12 to 14. -/
def Instructions.get_opcode (i : Instructions) : Nat :=
  (i.data >>> 12) &&& 0o7

/-- get_data: the 12-bit data field. -/
def Instructions.get_data (i : Instructions) : Nat :=
  i.data &&& 0o7777

/-- get_address: the 12-bit address field. -/
def Instructions.get_address (i : Instructions) : Nat :=
  i.data &&& 0o7777

/-- get_address_ram: the 10-bit erasable address field. -/
def Instructions.get_address_ram (i : Instructions) : Nat :=
  i.data &&& 0o1777

/-- is_extended: bit 15 marks an extended instruction. -/
def Instructions.is_extended (i : Instructions) : Bool :=
  i.data &&& 0o100000 = 0o100000

/-- decoder_extended from decoder.rs.  Err is modelled as none; an assigned
mnemonic and extrabits mirror the source arms, and opcode 1 keeps the
INVALID placeholder exactly as the source leaves it. -/
def decoder_extended (i : Instructions) : Option Instructions :=
  let opbits := i.get_opcode
  if opbits = 0 then
    let exb := (i.data &&& 0x0E00) >>> 9
    let i := { i with extrabits := some exb }
    if exb = 0 then some { i with mnem := .READ }
    else if exb = 1 then some { i with mnem := .WRITE, mct := 2 }
    else if exb = 2 then some { i with mnem := .RAND }
    else if exb = 3 then some { i with mnem := .WAND }
    else if exb = 4 then some { i with mnem := .ROR }
    else if exb = 5 then some { i with mnem := .WOR }
    else if exb = 6 then some { i with mnem := .RXOR }
    else if exb = 7 then some { i with mnem := .EDRUPT }
    else none
  else if opbits = 1 then
    let exb := (i.data &&& 0x0C00) >>> 10
    some { i with extrabits := some exb }
  else if opbits = 2 then
    let exb := (i.data &&& 0x0C00) >>> 10
    let i := { i with extrabits := some exb }
    if exb = 2 then some { i with mnem := .AUG }
    else if exb = 3 then some { i with mnem := .DIM }
    else none
  else if opbits = 3 then some { i with mnem := .DCA }
  else if opbits = 4 then some { i with mnem := .DCS }
  else if opbits = 5 then some { i with mnem := .INDEX }
  else if opbits = 6 then
    let exb := (i.data &&& 0x0C00) >>> 10
    let i := { i with extrabits := some exb }
    if exb = 0 then some { i with mnem := .SU } else some { i with mnem := .BZMF }
  else if opbits = 7 then some { i with mnem := .MP }
  else none

/-- decoder_simple from decoder.rs.  Err is modelled as none. -/
def decoder_simple (i : Instructions) : Option Instructions :=
  let opbits := i.get_opcode
  if opbits = 0 then
    let low := i.data &&& 0xFFF
    if low = 3 then some { i with mnem := .RELINT }
    else if low = 4 then some { i with mnem := .INHINT }
    else if low = 6 then some { i with mnem := .EXTEND }
    else some { i with mnem := .TC }
  else if opbits = 1 then
    let exb := (i.data &&& 0x0C00) >>> 10
    let i := { i with extrabits := some exb }
    if exb = 0 then some { i with mnem := .CCS }
    else if 1 ≤ exb ∧ exb ≤ 3 then some { i with mnem := .TCF }
    else none
  else if opbits = 2 then
    let exb := (i.data &&& 0x0C00) >>> 10
    let i := { i with extrabits := some exb }
    if exb = 0 then some { i with mnem := .DAS }
    else if exb = 1 then some { i with mnem := .LXCH }
    else if exb = 2 then some { i with mnem := .INCR }
    else if exb = 3 then some { i with mnem := .ADS }
    else none
  else if opbits = 3 then some { i with mnem := .CA, mct := 2 }
  else if opbits = 4 then some { i with mnem := .CS, mct := 2 }
  else if opbits = 5 then
    let exb := (i.data &&& 0x0C00) >>> 10
    let i := { i with extrabits := some exb }
    if exb = 0 then
      if i.data &&& 0o07777 = 0o00017 then some { i with mnem := .RESUME }
      else some { i with mnem := .INDEX }
    else if exb = 1 then some { i with mnem := .DXCH }
    else if exb = 2 then some { i with mnem := .TS, mct := 2 }
    else if exb = 3 then some { i with mnem := .XCH }
    else none
  else if opbits = 6 then some { i with mnem := .AD, mct := 2 }
  else if opbits = 7 then some { i with mnem := .MASK }
  else none

/-- decoder from decoder.rs: main decode entry point. -/
def decoder (pc : Nat) (data : Nat) : Option Instructions :=
  let i : Instructions :=
    { pc := pc, data := data, mnem := .INVALID, extrabits := none, mct := 1 }
  if i.is_extended then decoder_extended i else decoder_simple i

/-! Constants, from ragc-core/src/constants.rs (the ones the embedding uses). -/

def REGISTER_ACCUMULATOR : Nat := 0x0
def REGISTER_LINK : Nat := 0x1
def REGISTER_MULTIPLIER : Nat := 0x02
def REGISTER_RETURN : Nat := 0x2
def REGISTER_ERASABLE_BANK : Nat := 0x3
def REGISTER_FIXED_BANK : Nat := 0x4
def REGISTER_ZERO : Nat := 0x05
def REGISTER_COUNTER : Nat := 0x05
def REGISTER_COMBINED_BANK : Nat := 0x6
def REGISTER_NULL : Nat := 0x7
def REGISTER_COUNTER_BACKUP : Nat := 0xD
def REGISTER_INSTRUCTION : Nat := 0xF
def INTERRUPT_DOWNLINK : Nat := 0x8

/-! Edit registers, from ragc-core/src/memory/edit_registers.rs. -/

/-- EditRegisters holds the four edit-on-write shifter slots. -/
structure EditRegisters where
  cycle_right : Nat
  shift_reg : Nat
  cycle_left : Nat
  edit_op : Nat

def EditRegisters.new : EditRegisters :=
  { cycle_left := 0, cycle_right := 0, shift_reg := 0, edit_op := 0 }

/-- EditRegisters read; addresses are 0o20 cycle-right, 0o21 shift,
0o22 cycle-left, 0o23 edit-op; anything else logs an error and yields 0. -/
def EditRegisters.read (e : EditRegisters) (_bank address : Nat) : Nat :=
  if address = 0o22 then e.cycle_left
  else if address = 0o20 then e.cycle_right
  else if address = 0o21 then e.shift_reg
  else if address = 0o23 then e.edit_op
  else 0

/-- EditRegisters write performs the shift transformation on the masked value. -/
def EditRegisters.write (e : EditRegisters) (_bank address value : Nat) : EditRegisters :=
  let masked_value := value &&& 0x7FFF
  if address = 0o22 then
    let sign_bit := masked_value &&& 0x4000
    { e with cycle_left := ((masked_value <<< 1) &&& 0x7FFF) ||| (sign_bit >>> 14) }
  else if address = 0o20 then
    let low_bit := masked_value &&& 0x1
    { e with cycle_right := (masked_value >>> 1) ||| (low_bit <<< 14) }
  else if address = 0o21 then
    let sign_bit := masked_value &&& 0o40000
    { e with shift_reg := (masked_value >>> 1) ||| sign_bit }
  else if address = 0o23 then
    { e with edit_op := (masked_value >>> 7) &&& 0o177 }
  else e

/-! Timers, from ragc-core/src/memory/clock.rs. -/

/-- Clocks from clock.rs: master counter, MCT counter, interrupt service
counter, pending flag bits and the three visible timers. -/
structure Clocks where
  counter : Nat
  mct_counter : Nat
  rupt_counter : Nat
  interrupt_flags : Nat
  timer1 : Nat
  timer3 : Nat
  timer4 : Nat

def Clocks.new : Clocks :=
  { rupt_counter := 1, interrupt_flags := 0, counter := 0, mct_counter := 0,
    timer1 := 0, timer3 := 0, timer4 := 0 }

/-- update_interrupt_flags from clock.rs. -/
def Clocks.update_interrupt_flags (c : Clocks) (flags : Nat) : Clocks :=
  let c := { c with interrupt_flags := c.interrupt_flags ||| flags }
  if c.interrupt_flags = 0x3 then { c with interrupt_flags := 0x0, rupt_counter := 0 }
  else c

/-- Clocks memory-mapped read: timer 1 at 0o25 (14 bits), timer 3 at 0o26,
timer 4 at 0o27; any other timer-range address yields 0. -/
def Clocks.read (c : Clocks) (_bank address : Nat) : Nat :=
  if address = 0o25 then c.timer1 &&& 0o37777
  else if address = 0o26 then c.timer3
  else if address = 0o27 then c.timer4
  else 0

/-- Clocks memory-mapped write via set_time_value; timer 1 stores the raw
value, timers 3 and 4 mask to 15 bits; other addresses are ignored. -/
def Clocks.write (c : Clocks) (_bank address value : Nat) : Clocks :=
  if address = 0o25 then { c with timer1 := value }
  else if address = 0o26 then { c with timer3 := value &&& 0o77777 }
  else if address = 0o27 then { c with timer4 := value &&& 0o77777 }
  else c

/-! Special registers, from ragc-core/src/memory/special_registers.rs. -/

/-- SpecialRegisters from special_registers.rs. -/
structure SpecialRegisters where
  control_display : Nat × Nat × Nat
  optical_sensors : Nat × Nat
  inertial_platform : Nat × Nat × Nat

def SpecialRegisters.new : SpecialRegisters :=
  { control_display := (0, 0, 0), optical_sensors := (0, 0),
    inertial_platform := (0, 0, 0) }

/-- SpecialRegisters read; any non-zero bank or unmapped address logs and
yields 0, the command registers 0o50 to 0o52 are placeholders yielding 0. -/
def SpecialRegisters.read (s : SpecialRegisters) (memory_bank register_address : Nat) : Nat :=
  if memory_bank ≠ 0 then 0
  else if register_address = 0o32 then s.control_display.1
  else if register_address = 0o33 then s.control_display.2.1
  else if register_address = 0o34 then s.control_display.2.2
  else if register_address = 0o36 then s.optical_sensors.1
  else if register_address = 0o35 then s.optical_sensors.2
  else if register_address = 0o37 then s.inertial_platform.1
  else if register_address = 0o40 then s.inertial_platform.2.1
  else if register_address = 0o41 then s.inertial_platform.2.2
  else 0

/-- SpecialRegisters write from special_registers.rs: every arm only logs a
warning or an error and mutates nothing, so the state is returned as is. -/
def SpecialRegisters.write (s : SpecialRegisters) (_memory_bank _register_address _data : Nat) :
    SpecialRegisters :=
  s

/-! CPU registers, from ragc-core/src/memory/registers.rs. -/

/-- Registers from registers.rs: the 32-slot register array plus the two
bank latches. -/
structure Registers where
  registers : Nat → Nat
  fixed_bank : Nat
  erasable_bank : Nat

def Registers.new : Registers :=
  { registers := fun _ => 0, fixed_bank := 0, erasable_bank := 0 }

/-- refresh_bank_registers from registers.rs: derive the three visible bank
registers from the (erasable_bank, fixed_bank) pair. -/
def Registers.refresh_bank_registers (r : Registers) : Registers :=
  let erasable_value := (r.erasable_bank &&& 0x7) <<< 8
  let fixed_value := (r.fixed_bank &&& 0x1F) <<< 10
  let combined_bank_value := (erasable_value >>> 8) ||| fixed_value
  let r := { r with registers := updf r.registers REGISTER_ERASABLE_BANK erasable_value }
  let r := { r with registers := updf r.registers REGISTER_FIXED_BANK fixed_value }
  { r with registers := updf r.registers REGISTER_COMBINED_BANK combined_bank_value }

/-- Registers read from registers.rs: the accumulator and multiplier slots
are returned raw, register 5 is masked to 12 bits, register 7 reads 0, and
every other slot is masked to 15 bits. -/
def Registers.read (r : Registers) (_bank_index address_offset : Nat) : Nat :=
  if address_offset = REGISTER_ACCUMULATOR ∨ address_offset = REGISTER_MULTIPLIER then
    r.registers address_offset
  else if address_offset = REGISTER_ZERO then r.registers address_offset &&& 0o7777
  else if address_offset = REGISTER_NULL then 0o00000
  else r.registers address_offset &&& 0o77777

/-- Registers write from registers.rs.  The three bank arms return early.
The register-5 arm and the default arm store a masked value and then fall
through to the trailing unconditional store of the raw value, exactly as
the Rust match (whose non-bank arms lack a return) does. -/
def Registers.write (r : Registers) (_bank_index address_offset new_value : Nat) : Registers :=
  if address_offset = REGISTER_COMBINED_BANK then
    let r := { r with erasable_bank := new_value &&& 0x7,
                      fixed_bank := (new_value &&& 0x7C00) >>> 10 }
    r.refresh_bank_registers
  else if address_offset = REGISTER_FIXED_BANK then
    let r := { r with fixed_bank := (new_value &&& 0x7C00) >>> 10 }
    r.refresh_bank_registers
  else if address_offset = REGISTER_ERASABLE_BANK then
    let r := { r with erasable_bank := (new_value &&& 0x0700) >>> 8 }
    r.refresh_bank_registers
  else if address_offset = REGISTER_ZERO then
    let r := { r with registers := updf r.registers address_offset (new_value &&& 0o7777) }
    { r with registers := updf r.registers address_offset new_value }
  else if address_offset = REGISTER_NULL then r
  else
    let r := { r with registers := updf r.registers address_offset (new_value &&& 0o77777) }
    { r with registers := updf r.registers address_offset new_value }

/-! Erasable memory, from ragc-core/src/memory/memory.rs. -/

/-- Ram from memory.rs: eight banks of 256 words. -/
structure Ram where
  memory_banks : Nat → Nat → Nat

def Ram.new : Ram := { memory_banks := fun _ _ => 0 }

/-- Ram read: bank 0 offsets 0 and 2 are returned raw (16-bit accumulator
and multiplier mirrors), everything else is masked to 15 bits. -/
def Ram.read (m : Ram) (bank_index address_offset : Nat) : Nat :=
  if bank_index = 0 ∧ address_offset = REGISTER_ACCUMULATOR then
    m.memory_banks bank_index address_offset
  else if bank_index = 0 ∧ address_offset = REGISTER_MULTIPLIER then
    m.memory_banks bank_index address_offset
  else
    m.memory_banks bank_index address_offset &&& 0x7FFF

/-- Ram write, with the same two raw 16-bit slots. -/
def Ram.write (m : Ram) (bank_index address_offset value : Nat) : Ram :=
  if bank_index = 0 ∧ address_offset = REGISTER_ACCUMULATOR then
    { memory_banks := updf2 m.memory_banks bank_index address_offset value }
  else if bank_index = 0 ∧ address_offset = REGISTER_MULTIPLIER then
    { memory_banks := updf2 m.memory_banks bank_index address_offset value }
  else
    { memory_banks := updf2 m.memory_banks bank_index address_offset (value &&& 0x7FFF) }

/-! Fixed memory, from ragc-core/src/memory/rom.rs. -/

/-- bank_mapping is the BANK_MAPPING table of rom.rs: logical banks 0 to 3
permute to 2, 3, 0, 1 and every other logical bank maps to itself. -/
def bank_mapping : Nat → Nat
  | 0 => 2
  | 1 => 3
  | 2 => 0
  | 3 => 1
  | n => n

/-- u16_from_be models u16::from_be on a stored 16-bit word: the two bytes
are swapped. -/
def u16_from_be (v : Nat) : Nat :=
  (v % 256) * 256 + (v / 256) % 256

/-- ReadOnlyMemory from rom.rs; the bank data is an optional reference to
36 banks of 1024 raw big-endian words. -/
structure ReadOnlyMemory where
  memory_banks : Option (Nat → Nat → Nat)

def ReadOnlyMemory.empty : ReadOnlyMemory := { memory_banks := none }

/-- ROM read: out-of-bounds yields 0, a missing image yields 0, otherwise
the permuted bank is read, byte-swapped, shifted past the parity bit and
masked to 15 bits. -/
def ReadOnlyMemory.read (rom : ReadOnlyMemory) (memory_bank bank_address : Nat) : Nat :=
  if memory_bank ≥ 36 ∨ bank_address ≥ 1024 then 0
  else
    match rom.memory_banks with
    | some memory_data =>
        (u16_from_be (memory_data (bank_mapping memory_bank) bank_address) >>> 1) &&& 0x7FFF
    | none => 0

/-- ROM write from rom.rs: read-only, only a warning is logged. -/
def ReadOnlyMemory.write (rom : ReadOnlyMemory) (_memory_bank _bank_address _data_value : Nat) :
    ReadOnlyMemory :=
  rom

/-! Peripheral interface, from ragc-core/src/memory/mods.rs.  A peripheral
is external state behind the IoPeriph trait; it is modelled as an abstract
state together with pure transition functions for the three trait methods
(read takes a shared reference, write and is_interrupt take mutable ones). -/

/-- Periph models a dyn IoPeriph object: a hidden state with the trait
methods as functions of that state. -/
structure Periph where
  st : Nat
  readFn : Nat → Nat → Nat
  writeFn : Nat → Nat → Nat → Nat
  ruptFn : Nat → Nat × Nat

/-- periph_write applies the write method of a peripheral, updating its state. -/
def periph_write (p : Periph) (channel_idx value : Nat) : Periph :=
  { p with st := p.writeFn p.st channel_idx value }

/-! The I/O channel controller, from ragc-core/src/memory/io.rs. -/

/-- IoController from io.rs: the 256-slot port array and the two optional
attached peripherals. -/
structure IoController where
  port_map : Nat → Nat
  downlink : Option Periph
  display : Option Periph

/-- IoController empty from io.rs: no peripherals, calibration channels
0o30 to 0o33 preset. -/
def IoController.empty : IoController :=
  let pm := fun _ => 0
  let pm := updf pm 0o30 0o37777
  let pm := updf pm 0o31 0o77777
  let pm := updf pm 0o32 0o77777
  let pm := updf pm 0o33 0o77777
  { port_map := pm, downlink := none, display := none }

/-- IoController new from io.rs: same presets with both peripherals attached. -/
def IoController.new (downlink_periph display_unit : Periph) : IoController :=
  { IoController.empty with downlink := some downlink_periph, display := some display_unit }

/-- read_port from io.rs.  The match arms are transcribed in source order;
port constants are LOSCALAR 0o04, HISCALAR 0o03, PYJETS 0o05, ROLLJETS
0o06, DSKY 0o10, DSALMOUT 0o11, MNKEYIN 0o15, NAVKEYIN 0o16.  The Rust
method takes a mutable reference but only reads. -/
def IoController.read_port (ioc : IoController) (port : Nat) : Nat :=
  if port = 0o04 ∨ port = 0o03 then 0
  else if port = 0o05 ∨ port = 0o06 then ioc.port_map port
  else if port = 0o10 then 0
  else if port = 0o11 then ioc.port_map 0o11
  else if port = 0o12 then ioc.port_map 0o12
  else if port = 0o13 then ioc.port_map 0o13 &&& 0x47CF
  else if port = 0o14 then ioc.port_map 0o14
  else if port = 0o15 then
    match ioc.display with
    | some unit => unit.readFn unit.st port
    | none => 0o00000
  else if port = 0o16 then 0
  else if port = 0o31 then 0o77777
  else if port = 0o32 then
    let display_data :=
      match ioc.display with
      | some unit => unit.readFn unit.st port
      | none => 0o77777
    display_data ||| (ioc.port_map 0o32 &&& 0o57777)
  else if port = 0o33 then 0o77777
  else if port = 0o34 ∨ port = 0o35 then
    match ioc.downlink with
    | some periph => periph.readFn periph.st port
    | none => 0o77777
  else if port = 0o163 then
    match ioc.display with
    | some unit => unit.readFn unit.st port
    | none => 0o77777
  else ioc.port_map port

/-- write_port from io.rs: every write is first mirrored to both attached
peripherals, then DSALMOUT 0o11 and CHAN13 0o13 store, CHAN32 0o32 only
warns, and every other port stores into the port array. -/
def IoController.write_port (ioc : IoController) (port value : Nat) : IoController :=
  let ioc := { ioc with display := ioc.display.map (fun u => periph_write u port value) }
  let ioc := { ioc with downlink := ioc.downlink.map (fun u => periph_write u port value) }
  if port = 0o11 then { ioc with port_map := updf ioc.port_map 0o11 value }
  else if port = 0o13 then { ioc with port_map := updf ioc.port_map 0o13 value }
  else if port = 0o32 then ioc
  else { ioc with port_map := updf ioc.port_map port value }

/-- get_interrupt_status from io.rs: OR of is_interrupt over both attached
peripherals, each of which may update its own state. -/
def IoController.get_interrupt_status (ioc : IoController) : Nat × IoController :=
  let (s1, ioc) :=
    match ioc.display with
    | some unit =>
        let (v, st) := unit.ruptFn unit.st
        (v, { ioc with display := some { unit with st := st } })
    | none => (0, ioc)
  let (s2, ioc) :=
    match ioc.downlink with
    | some periph =>
        let (v, st) := periph.ruptFn periph.st
        (v, { ioc with downlink := some { periph with st := st } })
    | none => (0, ioc)
  (s1 ||| s2, ioc)

/-! The memory map, from ragc-core/src/memory/mod.rs. -/

/-- MemoryMap from mod.rs: owns every backing store.  The io field is
named ioc here. -/
structure MemoryMap where
  ram : Ram
  rom : ReadOnlyMemory
  ioc : IoController
  edit : EditRegisters
  special : SpecialRegisters
  timers : Clocks
  regs : Registers

/-- new_blank from mod.rs: a memory map without ROM image or peripherals. -/
def MemoryMap.new_blank : MemoryMap :=
  { ram := Ram.new, rom := ReadOnlyMemory.empty, ioc := IoController.empty,
    edit := EditRegisters.new, special := SpecialRegisters.new,
    timers := Clocks.new, regs := Registers.new }

/-- write_io from mod.rs, named write_chan here: channel 1 and channel 2
land in the link and multiplier registers, CHAN34 and CHAN35 first update
the clock interrupt flags, and everything else goes to the port array. -/
def MemoryMap.write_chan (m : MemoryMap) (idx value : Nat) : MemoryMap :=
  if idx = 0o01 then { m with regs := m.regs.write 0 REGISTER_LINK value }
  else if idx = 0o02 then { m with regs := m.regs.write 0 REGISTER_MULTIPLIER value }
  else if idx = 0o34 then
    let m := { m with timers := m.timers.update_interrupt_flags 1 }
    { m with ioc := m.ioc.write_port idx value }
  else if idx = 0o35 then
    let m := { m with timers := m.timers.update_interrupt_flags 2 }
    { m with ioc := m.ioc.write_port idx value }
  else { m with ioc := m.ioc.write_port idx value }

/-- read_io from mod.rs, named read_chan here: channels 1 and 2 read the
link and multiplier registers, HISCALAR 0o03 and LOSCALAR 0o04 split the
29-bit master counter, and everything else delegates to the controller. -/
def MemoryMap.read_chan (m : MemoryMap) (idx : Nat) : Nat :=
  if idx = 0o01 then m.regs.read 0 REGISTER_LINK
  else if idx = 0o02 then m.regs.read 0 REGISTER_MULTIPLIER
  else if idx = 0o03 then (m.timers.counter >>> 14) &&& 0o37777
  else if idx = 0o04 then m.timers.counter &&& 0o37777
  else m.ioc.read_port idx

/-- MemoryMap write from mod.rs: range dispatch over the linear address,
with erasable bank 3 and fixed bank 1 indirected through the bank latches.
VOLATILE is 0o61 to 0x3FF and PERSISTENT is 0x400 to 0xFFF. -/
def MemoryMap.write (m : MemoryMap) (idx val : Nat) : MemoryMap :=
  if idx ≤ 0o17 then { m with regs := m.regs.write 0 idx val }
  else if idx ≤ 0o23 then { m with edit := m.edit.write 0 idx val }
  else if idx ≤ 0o31 then { m with timers := m.timers.write 0 idx val }
  else if idx ≤ 0o60 then { m with special := m.special.write 0 idx val }
  else if idx ≤ 0x3FF then
    if idx >>> 8 = 3 then
      { m with ram := m.ram.write m.regs.erasable_bank (idx &&& 0xff) val }
    else
      { m with ram := m.ram.write (idx >>> 8) (idx &&& 0xff) val }
  else if 0x400 ≤ idx ∧ idx ≤ 0xFFF then
    let bank_idx := idx >>> 10
    if bank_idx = 1 then
      { m with rom := m.rom.write m.regs.fixed_bank (idx &&& 0x3ff) val }
    else
      { m with rom := m.rom.write bank_idx (idx &&& 0x3ff) val }
  else m

/-- MemoryMap read from mod.rs, the same range dispatch; an unmapped
address logs an error and yields 0. -/
def MemoryMap.read (m : MemoryMap) (idx : Nat) : Nat :=
  if idx ≤ 0o17 then m.regs.read 0 (idx &&& 0xff)
  else if idx ≤ 0o23 then m.edit.read 0 idx
  else if idx ≤ 0o31 then m.timers.read 0 idx
  else if idx ≤ 0o60 then m.special.read 0 idx
  else if idx ≤ 0x3FF then
    if idx >>> 8 = 3 then m.ram.read m.regs.erasable_bank (idx &&& 0xff)
    else m.ram.read (idx >>> 8) (idx &&& 0xff)
  else if 0x400 ≤ idx ∧ idx ≤ 0xFFF then
    if idx >>> 10 = 1 then m.rom.read m.regs.fixed_bank (idx &&& 0x3ff)
    else m.rom.read (idx >>> 10) (idx &&& 0x3ff)
  else 0

/-- check_interrupts from mod.rs: aggregate the peripheral interrupt bits. -/
def MemoryMap.check_interrupts (m : MemoryMap) : Nat × MemoryMap :=
  let (status, ioc) := m.ioc.get_interrupt_status
  (status, { m with ioc := ioc })

/-! The CPU, from ragc-core/src/cpu.rs. -/

/-- UnprogSequence from cpu.rs: the unprogrammed micro-operations. -/
inductive UnprogSequence where
  | PINC | PCDU | MINC | MCDU | DINC | SHINC | SHANC | INOTRD | INOTLD
  | FETCH | STORE | GOJ | TCSAJ | RUPT
  deriving DecidableEq, Repr

/-- not16 models bitwise complement of a u16 value. -/
def not16 (x : Nat) : Nat := x ^^^ 0xFFFF

/-- Cpu from cpu.rs.  The f64 mct_counter only ever accumulates integral
multiples of 12, so it is modelled as a Nat. -/
structure Cpu where
  mem : MemoryMap
  ir : Nat
  idx_val : Nat
  ec_flag : Bool
  total_cycles : Nat
  mct_counter : Nat
  timer_counter : Nat
  gint : Bool
  is_irupt : Bool
  unprog : List UnprogSequence
  rupt : Nat
  nightwatch : Nat
  nightwatch_cycles : Nat
  tc_count : Nat
  non_tc_count : Nat
  ruptlock_count : Int

/-- calculate_instr_data from cpu.rs: IR plus index under 15-bit semantics,
with the extend flag as bit 15. -/
def Cpu.calculate_instr_data (c : Cpu) : Nat :=
  let inst_data := add_s15 c.ir c.idx_val
  if c.ec_flag then inst_data ||| 0x8000 else inst_data

/-- Cpu read from cpu.rs: address 0o067 bumps the nightwatch counter. -/
def Cpu.read (c : Cpu) (idx : Nat) : Nat × Cpu :=
  let c := if idx = 0o067 then { c with nightwatch := c.nightwatch + 1 } else c
  (c.mem.read idx, c)

/-- Cpu write from cpu.rs, with the same nightwatch bump. -/
def Cpu.write (c : Cpu) (idx val : Nat) : Cpu :=
  let c := if idx = 0o067 then { c with nightwatch := c.nightwatch + 1 } else c
  { c with mem := c.mem.write idx val }

/-- read_s16 from cpu.rs: raw for the accumulator and multiplier, sign
extension for everything else. -/
def Cpu.read_s16 (c : Cpu) (idx : Nat) : Nat × Cpu :=
  if idx = REGISTER_ACCUMULATOR ∨ idx = REGISTER_MULTIPLIER then c.read idx
  else
    let (v, c) := c.read idx
    (extend_sign_bits v, c)

/-- read_s15 from cpu.rs. -/
def Cpu.read_s15 (c : Cpu) (idx : Nat) : Nat × Cpu :=
  if idx = REGISTER_ACCUMULATOR ∨ idx = REGISTER_MULTIPLIER then
    let (v, c) := c.read idx
    (adjust_overflow v &&& 0x7FFF, c)
  else
    let (v, c) := c.read idx
    (v &&& 0x7FFF, c)

/-- write_s16 from cpu.rs. -/
def Cpu.write_s16 (c : Cpu) (idx value : Nat) : Cpu :=
  if idx = REGISTER_ACCUMULATOR ∨ idx = REGISTER_MULTIPLIER then c.write idx value
  else c.write idx (adjust_overflow value &&& 0o77777)

/-- write_s15 from cpu.rs. -/
def Cpu.write_s15 (c : Cpu) (idx value : Nat) : Cpu :=
  if idx = REGISTER_ACCUMULATOR ∨ idx = REGISTER_MULTIPLIER then
    c.write idx (extend_sign_bits value)
  else c.write idx (value &&& 0o77777)

/-- write_dp from cpu.rs: split a 29-bit value into a big-endian pair of
15-bit words whose low word copies the sign of the high word. -/
def Cpu.write_dp (c : Cpu) (idx val : Nat) : Cpu :=
  let upper := (val >>> 14) &&& 0o77777
  let lower := (val &&& 0o37777) ||| (upper &&& 0o40000)
  let c := c.write_s15 idx upper
  c.write_s15 (idx + 1) lower

/-- Cpu read_io from cpu.rs, named read_chan here; the underlying channel
read mutates nothing. -/
def Cpu.read_chan (c : Cpu) (idx : Nat) : Nat :=
  c.mem.read_chan idx

/-- Cpu write_io from cpu.rs, named write_chan here. -/
def Cpu.write_chan (c : Cpu) (idx val : Nat) : Cpu :=
  { c with mem := c.mem.write_chan idx val }

/-- update_pc from cpu.rs: set the program counter register and pre-fetch
the instruction register from the new address. -/
def Cpu.update_pc (c : Cpu) (val : Nat) : Cpu :=
  let c := c.write REGISTER_COUNTER val
  let (v, c) := c.read val
  { c with ir := v }

/-- reset from cpu.rs. -/
def Cpu.reset (c : Cpu) : Cpu :=
  let c := c.update_pc 0x800
  { c with gint := false }

/-- restart from cpu.rs: like reset, and set bit 0o200 of channel 0o163. -/
def Cpu.restart (c : Cpu) : Cpu :=
  let c := c.update_pc 0x800
  let c := { c with gint := false }
  let io_val := c.read_chan 0o163
  c.write_chan 0o163 (0o200 ||| io_val)

/-- check_editing from cpu.rs: a store into the edit range is re-read and
re-written so the edit shifter acts on the just-stored value. -/
def Cpu.check_editing (c : Cpu) (k : Nat) : Cpu :=
  if k = 0o20 ∨ k = 0o21 ∨ k = 0o22 ∨ k = 0o23 then
    let (val, c) := c.read_s15 k
    c.write_s15 k val
  else c

/-- Cpu new from cpu.rs: zeroed state except the downlink interrupt bit,
followed by reset. -/
def Cpu.new (memmap : MemoryMap) : Cpu :=
  let cpu : Cpu :=
    { mem := memmap, ir := 0x0, ec_flag := false, idx_val := 0x0, unprog := [],
      total_cycles := 0, mct_counter := 0, timer_counter := 0,
      gint := false, is_irupt := false, rupt := 1 <<< INTERRUPT_DOWNLINK,
      nightwatch := 0, nightwatch_cycles := 0, tc_count := 0, non_tc_count := 0,
      ruptlock_count := 0 }
  cpu.reset

/-- is_overflow from cpu.rs: the top two accumulator bits differ. -/
def Cpu.is_overflow (c : Cpu) : Bool :=
  let a := (c.read REGISTER_ACCUMULATOR).1
  a &&& 0xC000 != 0xC000 && a &&& 0xC000 != 0x0000

/-- interrupt_disabled from cpu.rs. -/
def Cpu.interrupt_disabled (c : Cpu) : Bool :=
  c.ec_flag || !c.gint || c.is_irupt || c.is_overflow

/-- interrupt_pending from cpu.rs. -/
def Cpu.interrupt_pending (c : Cpu) : Bool :=
  c.rupt != 0

/-- dispatch_rupt is the body of the handle_interrupt loop at index i:
clear the global enable, back up PC+1 and the IR composite, clear the
index, jump to the vector and clear the chosen pending bit. -/
def Cpu.dispatch_rupt (c : Cpu) (i : Nat) : Cpu :=
  let mask := 1 <<< i
  let c := { c with gint := false }
  let (pcv, c) := c.read REGISTER_COUNTER
  let val := pcv + 1
  let c := c.write REGISTER_COUNTER_BACKUP val
  let c := c.write REGISTER_INSTRUCTION c.calculate_instr_data
  let c := { c with idx_val := 0 }
  let new_pc := 0x800 + i * 4
  let c := c.update_pc new_pc
  { c with rupt := c.rupt ^^^ mask }

/-- handle_interrupt_go models the for loop of handle_interrupt: scan
indices upward from i with the given fuel, dispatching at the first index
whose pending bit is set. -/
def Cpu.handle_interrupt_go (c : Cpu) : Nat → Nat → Cpu
  | _, 0 => c
  | i, fuel + 1 =>
    if c.rupt &&& (1 <<< i) ≠ 0 then c.dispatch_rupt i
    else c.handle_interrupt_go (i + 1) fuel

/-- handle_interrupt from cpu.rs: the loop runs i over 0 to 9. -/
def Cpu.handle_interrupt (c : Cpu) : Cpu :=
  c.handle_interrupt_go 0 10

/-- handle_goj from cpu.rs: zero the listed output channels, clear bit
0o02000 of channel 0o33, drop interrupt state and the TC counters, then
restart; the unprogrammed sequence costs 2 cycles. -/
def Cpu.handle_goj (c : Cpu) : Cpu × Nat :=
  let c := c.write_chan 0o05 0
  let c := c.write_chan 0o06 0
  let c := c.write_chan 0o10 0
  let c := c.write_chan 0o11 0
  let c := c.write_chan 0o12 0
  let c := c.write_chan 0o13 0
  let c := c.write_chan 0o14 0
  let c := c.write_chan 0o34 0
  let c := c.write_chan 0o35 0
  let val := c.read_chan 0o33
  let c := c.write_chan 0o33 (val &&& 0o75777)
  let c := { c with gint := false, is_irupt := false }
  let c := { c with tc_count := 0, non_tc_count := 0 }
  let c := c.restart
  (c, 2)

/-! Instruction handlers, from ragc-core/src/instructions/instructions.rs.
Each handler returns the updated CPU and its cycle cost. -/

/-- ad: ones-complement add of A and M at the full address into A.  The
source checks the carry against 0xFFFF0000 on a u32 sum, transcribed as is. -/
def Cpu.ad (c : Cpu) (cmd : Instructions) : Cpu × Nat :=
  let (a, c) := c.read_s16 REGISTER_ACCUMULATOR
  let (b, c) := c.read_s16 cmd.get_address
  let sum := a + b
  let sum := if sum &&& 0xFFFF0000 ≠ 0 then sum + 1 else sum
  let c := c.write_s16 REGISTER_ACCUMULATOR (sum &&& 0xFFFF)
  let c := c.check_editing cmd.get_address
  (c, 2)

/-- ads: add and store back to the erasable address. -/
def Cpu.ads (c : Cpu) (cmd : Instructions) : Cpu × Nat :=
  let (x, c) := c.read_s16 REGISTER_ACCUMULATOR
  let (y, c) := c.read_s16 cmd.get_address_ram
  let z := x + y
  let z := if z &&& 0xFFFF0000 ≠ 0 then z + 1 else z
  let res := z &&& 0xFFFF
  let c := c.write_s16 REGISTER_ACCUMULATOR res
  let c := c.write_s16 cmd.get_address_ram res
  (c, 2)

/-- mp: ones-complement multiply into the A and L pair.  The u32
complement-and-mask of the source is the xor with 0o3777777777. -/
def Cpu.mp (c : Cpu) (cmd : Instructions) : Cpu × Nat :=
  let (val1, c) := c.read_s15 REGISTER_ACCUMULATOR
  let s1 := val1 &&& 0o40000
  let mag1 := if s1 ≠ 0 then not16 val1 &&& 0o37777 else val1 &&& 0o37777
  let (val2, c) := c.read_s15 cmd.get_address
  let s2 := val2 &&& 0o40000
  let mag2 := if s2 ≠ 0 then not16 val2 &&& 0o37777 else val2 &&& 0o37777
  let output := (mag1 * mag2) &&& 0o1777777777
  let output :=
    if s2 ≠ s1 then
      if output = 0o0000000000 ∨ output = 0o1777777777 then
        if (mag1 ||| mag2) = 0 then 0 else 0o3777777777
      else output ^^^ 0o3777777777
    else output
  let c := c.write_dp REGISTER_ACCUMULATOR output
  (c, 3)

/-- incr: circular increment with the 16-bit rollovers on A and the
multiplier and the 15-bit rollovers elsewhere. -/
def Cpu.incr (c : Cpu) (cmd : Instructions) : Cpu × Nat :=
  let reg := cmd.get_address_ram
  let (curr, c) := c.read reg
  let next :=
    if reg = REGISTER_ACCUMULATOR ∨ reg = REGISTER_MULTIPLIER then
      if curr = 0o077777 then curr &&& 0o177777
      else if curr = 0o177777 then 0o000001
      else (curr + 1) &&& 0o177777
    else
      if curr = 0o37777 then 0
      else if curr = 0o77777 then 1
      else (curr + 1) &&& 0o77777
  let c := c.write reg next
  (c, 2)

/-- su: A plus the complement of the erasable operand. -/
def Cpu.su (c : Cpu) (cmd : Instructions) : Cpu × Nat :=
  let (a, c) := c.read_s16 REGISTER_ACCUMULATOR
  let (bv, c) := c.read_s16 cmd.get_address_ram
  let b := not16 bv
  let sum := a + b
  let sum := if sum &&& 0xFFFF0000 ≠ 0 then sum + 1 else sum
  let c := c.write_s16 REGISTER_ACCUMULATOR (sum &&& 0xFFFF)
  let c := c.check_editing cmd.get_address_ram
  (c, 2)

/-- dim: decrement the magnitude, fixing the two zero representations. -/
def Cpu.dim (c : Cpu) (cmd : Instructions) : Cpu × Nat :=
  let addr := cmd.get_address_ram
  let (val, c) := c.read_s16 addr
  let c :=
    if val = 0o177777 ∨ val = 0 then c
    else if val &&& 0o40000 ≠ 0 then c.write_s16 addr (val + 1)
    else c.write_s16 addr (if val - 1 = 0 then 0o177777 else val - 1)
  (c, 2)

/-- dv: only the null-dividend branch stores into A, as in the source. -/
def Cpu.dv (c : Cpu) (cmd : Instructions) : Cpu × Nat :=
  let (d, c) := c.read_s15 cmd.get_address_ram
  let (num_high, c) := c.read_s15 REGISTER_ACCUMULATOR
  let (num_low, c) := c.read_s15 REGISTER_LINK
  let s_div := d &&& 0o40000
  let s_num :=
    if num_high = 0o77777 ∨ num_high = 0 then num_low &&& 0o40000
    else num_high &&& 0o40000
  let c :=
    if (num_high = 0o77777 ∨ num_high = 0) ∧ (num_low = 0o77777 ∨ num_low = 0) then
      c.write_s15 REGISTER_ACCUMULATOR (if s_num ^^^ s_div = 0 then 0o37777 else 0o40000)
    else c
  (c, 6)

/-- bzf: branch when the raw 16-bit accumulator is 0x0000 or 0xFFFF, at a
cost of 1 cycle, else fall through at a cost of 2. -/
def Cpu.bzf (c : Cpu) (cmd : Instructions) : Cpu × Nat :=
  let c := { c with ec_flag := false }
  let (reg_a, c) := c.read REGISTER_ACCUMULATOR
  if reg_a = 0 ∨ reg_a = 0xFFFF then
    let destination := cmd.get_data &&& 0xFFF
    let c := c.write REGISTER_COUNTER destination
    let (v, c) := c.read destination
    let c := { c with ir := v }
    (c, 1)
  else (c, 2)

/-- tcf: absolute jump, clearing the extend flag. -/
def Cpu.tcf (c : Cpu) (cmd : Instructions) : Cpu × Nat :=
  let jump_target := cmd.get_data
  let c := c.update_pc jump_target
  let c := { c with ec_flag := false }
  (c, 1)

/-- tc: call, saving the updated PC into the return register. -/
def Cpu.tc (c : Cpu) (cmd : Instructions) : Cpu × Nat :=
  let new_pc := cmd.get_data
  let (current_pc, c) := c.read REGISTER_COUNTER
  let c := c.update_pc new_pc
  let c := c.write REGISTER_RETURN current_pc
  let c := { c with ec_flag := false }
  (c, 1)

/-- inhint: clear the global interrupt enable. -/
def Cpu.inhint (c : Cpu) (_cmd : Instructions) : Cpu × Nat :=
  ({ c with gint := false }, 1)

/-- relint: set the global interrupt enable. -/
def Cpu.relint (c : Cpu) (_cmd : Instructions) : Cpu × Nat :=
  ({ c with gint := true }, 1)

/-- resume: restore PC (minus one for the pre-fetch) and IR from the
backup registers, clear the index and leave interrupt mode. -/
def Cpu.resume (c : Cpu) (_cmd : Instructions) : Cpu × Nat :=
  let (bpc, c) := c.read REGISTER_COUNTER_BACKUP
  let shadow_pc := bpc - 1
  let c := c.write REGISTER_COUNTER shadow_pc
  let (v, c) := c.read REGISTER_INSTRUCTION
  let c := { c with ir := v }
  let c := { c with idx_val := 0 }
  let c := { c with gint := true, is_irupt := false }
  (c, 2)

/-- ror: OR a channel into A. -/
def Cpu.ror (c : Cpu) (cmd : Instructions) : Cpu × Nat :=
  let port := cmd.get_data &&& 0x1FF
  let port_value := c.read_chan port
  let c :=
    if port = 2 then
      let (a, c) := c.read_s16 REGISTER_ACCUMULATOR
      c.write_s16 REGISTER_ACCUMULATOR (a ||| port_value)
    else
      let (a, c) := c.read_s15 REGISTER_ACCUMULATOR
      c.write_s15 REGISTER_ACCUMULATOR ((a ||| (port_value &&& 0x7FFF)) &&& 0x7FFF)
  (c, 2)

/-- rand: AND a channel into A. -/
def Cpu.rand (c : Cpu) (cmd : Instructions) : Cpu × Nat :=
  let port := cmd.get_data &&& 0x1FF
  let port_value := c.read_chan port
  let c :=
    if port = 2 then
      let (a, c) := c.read_s16 REGISTER_ACCUMULATOR
      c.write_s16 REGISTER_ACCUMULATOR (a &&& port_value)
    else
      let (a, c) := c.read_s15 REGISTER_ACCUMULATOR
      c.write_s15 REGISTER_ACCUMULATOR ((a &&& (port_value &&& 0x7FFF)) &&& 0x7FFF)
  (c, 2)

/-- rxor: XOR a channel into A. -/
def Cpu.rxor (c : Cpu) (cmd : Instructions) : Cpu × Nat :=
  let port := cmd.get_data &&& 0x1FF
  let port_value := c.read_chan port
  let c :=
    if port = 2 then
      let (a, c) := c.read_s16 REGISTER_ACCUMULATOR
      c.write_s16 REGISTER_ACCUMULATOR (a ^^^ port_value)
    else
      let (a, c) := c.read_s15 REGISTER_ACCUMULATOR
      c.write_s15 REGISTER_ACCUMULATOR ((a ^^^ (port_value &&& 0x7FFF)) &&& 0x7FFF)
  (c, 2)

/-- wor: OR a channel into A and write the result back to the channel. -/
def Cpu.wor (c : Cpu) (cmd : Instructions) : Cpu × Nat :=
  let port := cmd.get_data &&& 0x1FF
  let port_data := c.read_chan port
  let c :=
    if port = 2 then
      let (a, c) := c.read_s16 REGISTER_ACCUMULATOR
      let new_value := a ||| port_data
      let c := c.write_s16 REGISTER_ACCUMULATOR new_value
      c.write_chan port new_value
    else
      let (a, c) := c.read_s15 REGISTER_ACCUMULATOR
      let masked_value := a ||| (port_data &&& 0x7FFF)
      let c := c.write_s15 REGISTER_ACCUMULATOR masked_value
      c.write_chan port (masked_value &&& 0x7FFF)
  (c, 2)

/-- wand: AND a channel into A and write the result back to the channel. -/
def Cpu.wand (c : Cpu) (cmd : Instructions) : Cpu × Nat :=
  let port := cmd.get_data &&& 0x1FF
  let port_data := c.read_chan port
  let c :=
    if port = 2 then
      let (a, c) := c.read_s16 REGISTER_ACCUMULATOR
      let new_value := a &&& port_data
      let c := c.write_s16 REGISTER_ACCUMULATOR new_value
      c.write_chan port new_value
    else
      let (a, c) := c.read_s15 REGISTER_ACCUMULATOR
      let masked_value := a &&& (port_data &&& 0x7FFF)
      let c := c.write_s15 REGISTER_ACCUMULATOR masked_value
      c.write_chan port (masked_value &&& 0x7FFF)
  (c, 2)

/-- read_instr: load a channel into A, sign-extending except channel 2. -/
def Cpu.read_instr (c : Cpu) (cmd : Instructions) : Cpu × Nat :=
  let port := cmd.get_data &&& 0x1FF
  let input_data :=
    if port = 2 then c.read_chan port else extend_sign_bits (c.read_chan port)
  let c := c.write_s16 REGISTER_ACCUMULATOR input_data
  (c, 2)

/-- write_instr: store A to a channel, with overflow adjustment except on
channel 2. -/
def Cpu.write_instr (c : Cpu) (cmd : Instructions) : Cpu × Nat :=
  let port := cmd.get_data &&& 0x1FF
  let (data, c) := c.read_s16 REGISTER_ACCUMULATOR
  let c :=
    if port = 2 then c.write_chan port data
    else c.write_chan port (adjust_overflow data &&& 0x7FFF)
  (c, 2)

/-- cs: load the complement of memory into A. -/
def Cpu.cs (c : Cpu) (cmd : Instructions) : Cpu × Nat :=
  let location := cmd.get_data
  let (v, c) := c.read_s16 location
  let inverted_value := not16 v &&& 0xFFFF
  let c := c.write_s16 REGISTER_ACCUMULATOR inverted_value
  let c := c.check_editing cmd.get_address
  (c, 2)

/-- dcs: double complement load into L then A, big-endian pair. -/
def Cpu.dcs (c : Cpu) (cmd : Instructions) : Cpu × Nat :=
  let base_addr := cmd.get_address - 1
  let (lo, c) := c.read_s16 (base_addr + 1)
  let negated_low := not16 lo &&& 0xFFFF
  let c := c.write REGISTER_LINK negated_low
  let (hi, c) := c.read_s16 base_addr
  let negated_high := not16 hi &&& 0xFFFF
  let c := c.write REGISTER_ACCUMULATOR negated_high
  let c := c.check_editing (base_addr + 1)
  let c := c.check_editing base_addr
  (c, 3)

/-- dca: double load into L then A, big-endian pair. -/
def Cpu.dca (c : Cpu) (cmd : Instructions) : Cpu × Nat :=
  let base_address := cmd.get_address - 1
  let (low_word, c) := c.read_s16 (base_address + 1)
  let c := c.write_s16 REGISTER_LINK low_word
  let (high_word, c) := c.read_s16 base_address
  let c := c.write_s16 REGISTER_ACCUMULATOR high_word
  let c := c.check_editing (base_address + 1)
  let c := c.check_editing base_address
  (c, 3)

/-- lxch: exchange L with memory. -/
def Cpu.lxch (c : Cpu) (cmd : Instructions) : Cpu × Nat :=
  let swap_addr := cmd.get_address_ram
  let (l_reg_value, c) := c.read_s16 REGISTER_LINK
  let (mem_value, c) := c.read_s16 swap_addr
  let c := c.write_s16 REGISTER_LINK mem_value
  let c := c.write_s16 swap_addr l_reg_value
  (c, 2)

/-- ca: plain load into A. -/
def Cpu.ca (c : Cpu) (cmd : Instructions) : Cpu × Nat :=
  let source := cmd.get_data
  let (data, c) := c.read_s16 source
  let c := c.write_s16 REGISTER_ACCUMULATOR data
  let c := c.check_editing source
  (c, 2)

/-- qxch: exchange the return register with memory. -/
def Cpu.qxch (c : Cpu) (cmd : Instructions) : Cpu × Nat :=
  let target_addr := cmd.get_address_ram
  let (temp_value, c) := c.read_s16 target_addr
  let (lr_value, c) := c.read_s16 REGISTER_RETURN
  let c := c.write_s16 target_addr lr_value
  let c := c.write_s16 REGISTER_RETURN temp_value
  (c, 2)

/-- xch: exchange A with memory, adjusting overflow on the stored value. -/
def Cpu.xch (c : Cpu) (cmd : Instructions) : Cpu × Nat :=
  let exchange_addr := cmd.get_address_ram
  let (mem_data, c) := c.read_s16 exchange_addr
  let (a_reg_value, c) := c.read_s16 REGISTER_ACCUMULATOR
  let c := c.write_s16 exchange_addr (adjust_overflow a_reg_value)
  let c := c.write_s16 REGISTER_ACCUMULATOR mem_data
  (c, 2)

/-- execute from cpu.rs: dispatch by mnemonic.  The mnemonics without an
arm, INDEX among them, hit the default arm which clears the extend flag,
zeroes the index accumulator and costs nothing. -/
def Cpu.execute (c : Cpu) (inst : Instructions) : Cpu × Nat :=
  let c :=
    match inst.mnem with
    | .TC | .TCF => { c with non_tc_count := 0, tc_count := c.tc_count + 1 }
    | _ => { c with tc_count := 0, non_tc_count := c.non_tc_count + 1 }
  match inst.mnem with
  | .AD => c.ad inst
  | .ADS => c.ads inst
  | .BZF => c.bzf inst
  | .CA => c.ca inst
  | .CS => c.cs inst
  | .DCA => c.dca inst
  | .DCS => c.dcs inst
  | .DIM => c.dim inst
  | .DV => c.dv inst
  | .EXTEND => ({ c with ec_flag := true, idx_val := 0x0 }, 1)
  | .INCR => c.incr inst
  | .INHINT => c.inhint inst
  | .LXCH => c.lxch inst
  | .MP => c.mp inst
  | .QXCH => c.qxch inst
  | .RELINT => c.relint inst
  | .RESUME => c.resume inst
  | .ROR => c.ror inst
  | .RAND => c.rand inst
  | .READ => c.read_instr inst
  | .RXOR => c.rxor inst
  | .SU => c.su inst
  | .TC => c.tc inst
  | .TCF => c.tcf inst
  | .WAND => c.wand inst
  | .WOR => c.wor inst
  | .WRITE => c.write_instr inst
  | .XCH => c.xch inst
  | _ => ({ c with ec_flag := false, idx_val := 0x0 }, 0)

/-- update_cycles from cpu.rs. -/
def Cpu.update_cycles (c : Cpu) (cycles : Nat) : Cpu :=
  { c with mct_counter := c.mct_counter + cycles * 12,
           total_cycles := c.total_cycles + cycles }

/-- step_unprogrammed from cpu.rs: pop one unprogrammed operation (the
unwrap on an empty queue is modelled as none), charge its cycles, run GOJ
specially, and otherwise poll and dispatch interrupts. -/
def Cpu.step_unprogrammed (c : Cpu) : Option (Cpu × Nat) :=
  match c.unprog with
  | [] => none
  | instr :: rest =>
    let c := { c with unprog := rest }
    let cycles : Nat :=
      match instr with
      | .GOJ | .TCSAJ | .STORE | .FETCH | .RUPT => 2
      | _ => 1
    let c := c.update_cycles cycles
    match instr with
    | .GOJ =>
      let (c, _) := c.handle_goj
      some (c, cycles)
    | _ =>
      let c :=
        if !c.interrupt_disabled then
          let (status, m) := c.mem.check_interrupts
          let c := { c with mem := m, rupt := c.rupt ||| status }
          if c.interrupt_pending then
            let c := c.handle_interrupt
            { c with is_irupt := true }
          else c
        else c
      some (c, cycles)

/-- step_programmed from cpu.rs: dispatch a deliverable pending interrupt
first, otherwise fetch, decode (a decode error panics, modelled as none),
advance PC, clear the index, clear the extend flag except after INDEX,
execute and account. -/
def Cpu.step_programmed (c : Cpu) : Option (Cpu × Nat) :=
  if !c.interrupt_disabled && c.interrupt_pending then
    let c := c.handle_interrupt
    let c := { c with is_irupt := true }
    some (c, 0)
  else
    let inst_data := c.calculate_instr_data
    let (pcv, c) := c.read REGISTER_COUNTER
    let addr := pcv &&& 0xFFFF
    match decoder addr inst_data with
    | none => none
    | some i =>
      let next_pc := (addr + 1) &&& 0xFFFF
      let c := c.update_pc next_pc
      let c := { c with idx_val := 0 }
      let c :=
        if c.ec_flag then
          if i.mnem ≠ Mnemonic.INDEX then { c with ec_flag := false } else c
        else c
      let (c, cycles) := c.execute i
      let c := c.update_cycles cycles
      some (c, cycles)

/-- step from cpu.rs. -/
def Cpu.step (c : Cpu) : Option (Cpu × Nat) :=
  if c.unprog.length > 0 then c.step_unprogrammed else c.step_programmed

/-! Concrete machine states used by the claim theorems, built through the
model constructors and state transitions above. -/

/-- step_twice runs two programmed or unprogrammed steps, propagating the
panic case. -/
def step_twice (c : Cpu) : Option Cpu :=
  match c.step with
  | none => none
  | some (c1, _) =>
    match c1.step with
    | none => none
    | some (c2, _) => some c2

/-- step_once runs one step, keeping only the resulting state. -/
def step_once (c : Cpu) : Option Cpu :=
  (c.step).map Prod.fst

/-- bzf_cmd is a decoded BZF instruction whose 12-bit target is 0xC05. -/
def bzf_cmd : Instructions :=
  { pc := 0x801, mnem := .BZF, data := 0x9C05, extrabits := some 1, mct := 1 }

/-- bzf_negzero_cpu is a fresh machine whose accumulator holds 0xFFFF,
the 16-bit negative zero. -/
def bzf_negzero_cpu : Cpu :=
  (Cpu.new MemoryMap.new_blank).write REGISTER_ACCUMULATOR 0xFFFF

/-- bzf_ovf_cpu is a fresh machine whose accumulator holds 0x7FFF, a
positive-overflow pattern that is not a 16-bit zero representation. -/
def bzf_ovf_cpu : Cpu :=
  (Cpu.new MemoryMap.new_blank).write REGISTER_ACCUMULATOR 0x7FFF

/-- extend_index_mem holds EXTEND at 0x200, INDEX 0o100 (word 0o50100) at
0x201 and the value 42 at 0o100, all in erasable memory. -/
def extend_index_mem : MemoryMap :=
  ((MemoryMap.new_blank.write 0x200 6).write 0x201 0o50100).write 0o100 42

/-- extend_index_cpu starts the fresh machine at PC 0x200, about to run
EXTEND and then INDEX 0o100. -/
def extend_index_cpu : Cpu :=
  (Cpu.new extend_index_mem).update_pc 0x200

/-- rupt_pair_cpu is a fresh machine with interrupts enabled and pending
bits 4 and 8, as in the spec interrupt-priority scenario. -/
def rupt_pair_cpu : Cpu :=
  { Cpu.new MemoryMap.new_blank with rupt := 0x110, gint := true }

/-- rupt_manual_cpu is a fresh machine with interrupts enabled and only
pending bit 10, the manual interrupt index. -/
def rupt_manual_cpu : Cpu :=
  { Cpu.new MemoryMap.new_blank with rupt := 1 <<< 10, gint := true }

/-- goj_cpu is a fresh machine with the GOJ unprogrammed sequence queued. -/
def goj_cpu : Cpu :=
  { Cpu.new MemoryMap.new_blank with unprog := [.GOJ] }

/-! Helper lemmas about the bit operations used by the embedding. -/

theorem updf_same (f : Nat → Nat) (i v : Nat) : updf f i v i = v := by
  simp [updf]

theorem updf_other (f : Nat → Nat) (i v j : Nat) (h : j ≠ i) : updf f i v j = f j := by
  simp [updf, h]

theorem and_mask3 (x : Nat) : x &&& 7 = x % 8 := by
  have h := Nat.and_pow_two_sub_one_eq_mod x 3
  norm_num at h
  exact h

theorem and_mask5 (x : Nat) : x &&& 31 = x % 32 := by
  have h := Nat.and_pow_two_sub_one_eq_mod x 5
  norm_num at h
  exact h

theorem and_mask6 (x : Nat) : x &&& 63 = x % 64 := by
  have h := Nat.and_pow_two_sub_one_eq_mod x 6
  norm_num at h
  exact h

theorem and_mask8 (x : Nat) : x &&& 255 = x % 256 := by
  have h := Nat.and_pow_two_sub_one_eq_mod x 8
  norm_num at h
  exact h

theorem and_mask12 (x : Nat) : x &&& 4095 = x % 4096 := by
  have h := Nat.and_pow_two_sub_one_eq_mod x 12
  norm_num at h
  exact h

theorem and_mask15 (x : Nat) : x &&& 32767 = x % 32768 := by
  have h := Nat.and_pow_two_sub_one_eq_mod x 15
  norm_num at h
  exact h

theorem and_mask16 (x : Nat) : x &&& 65535 = x % 65536 := by
  have h := Nat.and_pow_two_sub_one_eq_mod x 16
  norm_num at h
  exact h

theorem and_bit15 (x : Nat) : x &&& 32768 = if x / 32768 % 2 = 1 then 32768 else 0 := by
  have h := Nat.and_two_pow x 15
  norm_num at h
  rw [h, Nat.testBit_to_div_mod]
  norm_num
  by_cases hc : x / 32768 % 2 = 1 <;> simp [hc]

theorem or_mul_add {i : Nat} (a b : Nat) (hb : b < 2 ^ i) :
    2 ^ i * a ||| b = 2 ^ i * a + b :=
  (Nat.mul_add_lt_is_or hb a).symm

/-! Claim C6, on add_s15 from utils.rs. -/

/-- C6 counterexample: the claim says adding negative zero is the identity
on every 15-bit word, but on the word +0 the code yields negative zero,
0x7FFF, not 0. -/
theorem claim_C6_counterexample : add_s15 0 0x7FFF ≠ 0 := by decide

/-- C6 (amended): for every 15-bit word a, add_s15 a 0 = a (equivalently a
mod 2^15), and add_s15 a 0x7FFF = a for every nonzero a, while at a = 0 the
sum is 0x7FFF, the other representation of zero. -/
theorem claim_C6_add_s15 (a : Nat) (ha : a < 32768) :
    add_s15 a 0 = a % 32768 ∧
    (a ≠ 0 → add_s15 a 0x7FFF = a) ∧
    (a = 0 → add_s15 a 0x7FFF = 0x7FFF) := by
  refine ⟨?_, ?_, ?_⟩
  · have h1 : (a + 0) &&& 0x8000 = 0 := by
      rw [show (0x8000 : Nat) = 32768 from rfl, and_bit15]
      have hz : (a + 0) / 32768 % 2 = 0 := by omega
      rw [hz]
      norm_num
    show (if (a + 0) &&& 0x8000 ≠ 0 then a + 0 + 1 else a + 0) &&& 0x7FFF = a % 32768
    rw [h1]
    norm_num
    rw [show (0x7FFF : Nat) = 32767 from rfl, and_mask15]
  · intro hne
    have h1 : (a + 0x7FFF) &&& 0x8000 = 32768 := by
      rw [show (0x8000 : Nat) = 32768 from rfl, and_bit15]
      have hone : (a + 0x7FFF) / 32768 % 2 = 1 := by omega
      rw [hone]
      norm_num
    show (if (a + 0x7FFF) &&& 0x8000 ≠ 0 then a + 0x7FFF + 1 else a + 0x7FFF) &&& 0x7FFF = a
    rw [h1]
    norm_num
    rw [show (0x7FFF : Nat) = 32767 from rfl, and_mask15]
    omega
  · intro hz
    subst hz
    decide

/-- C6 witness at a = 5. -/
theorem claim_C6_witness : add_s15 5 0 = 5 ∧ add_s15 5 0x7FFF = 5 :=
  ⟨by have h := (claim_C6_add_s15 5 (by norm_num)).1; simpa using h,
   (claim_C6_add_s15 5 (by norm_num)).2.1 (by norm_num)⟩

/-! Claim C1, on the DSKY wire codec from dsky-protocol/src/agc.rs. -/

theorem byte1_shape : ∀ m < 8, ∀ w < 8,
    0x40 ||| (m <<< 3) ||| w = 64 + (m * 8 + w) := by decide

theorem byte2_shape : ∀ y < 64, 0x80 ||| y = 128 + y := by decide

theorem byte3_shape : ∀ z < 64, 0xC0 ||| z = 192 + z := by decide

theorem frame0_tag : ∀ x < 32, x &&& 0xC0 = 0x00 := by decide

theorem frame1_tag : ∀ x < 64, (64 + x) &&& 0xC0 = 0x40 := by decide

theorem frame2_tag : ∀ y < 64, (128 + y) &&& 0xC0 = 0x80 := by decide

theorem frame3_tag : ∀ z < 64, (192 + z) &&& 0xC0 = 0xC0 := by decide

theorem byte1_low3 : ∀ m < 8, ∀ w < 8, (64 + (m * 8 + w)) &&& 0x07 = w := by decide

theorem byte1_mid3 : ∀ m < 8, ∀ w < 8, ((64 + (m * 8 + w)) >>> 3) &&& 0x07 = m := by decide

theorem byte2_low6 : ∀ y < 64, (128 + y) &&& 0x3F = y := by decide

theorem byte3_low6 : ∀ z < 64, (192 + z) &&& 0x3F = z := by decide

/-- C1 counterexample: the claim quantifies addresses up to 2^11, but the
serializer masks addr shifted right by 3 with 0x1F, keeping only address
bits 3 to 7, so at address 256 the round trip returns address 0. -/
theorem claim_C1_counterexample :
    parse_dsky_packet (generate_dsky_packet 256 0) ≠ some (256, 0) := by decide

/-- C1 (amended): the round trip holds on the address range the wire
format actually transports, addresses below 2^8; the 15-bit value range is
as claimed. -/
theorem claim_C1_roundtrip (a v : Nat) (ha : a < 256) (hv : v < 32768) :
    parse_dsky_packet (generate_dsky_packet a v) = some (a, v) := by
  have hm : a % 8 < 8 := Nat.mod_lt _ (by norm_num)
  have hw : v / 4096 % 8 < 8 := Nat.mod_lt _ (by norm_num)
  have hy : v / 64 % 64 < 64 := Nat.mod_lt _ (by norm_num)
  have hz : v % 64 < 64 := Nat.mod_lt _ (by norm_num)
  have hb0v : a / 8 < 32 := by omega
  have hb0 : 0x0 ||| ((a >>> 3) &&& 0x1F) = a / 8 := by
    rw [Nat.zero_or, Nat.shiftRight_eq_div_pow, and_mask5]
    norm_num
    omega
  have hb1 : 0x40 ||| ((a &&& 0x7) <<< 3) ||| ((v >>> 12) &&& 0x7)
      = 64 + (a % 8 * 8 + v / 4096 % 8) := by
    rw [Nat.shiftRight_eq_div_pow, and_mask3, and_mask3]
    norm_num
    exact byte1_shape (a % 8) hm (v / 4096 % 8) hw
  have hb2 : 0x80 ||| ((v >>> 6) &&& 0x3F) = 128 + v / 64 % 64 := by
    rw [Nat.shiftRight_eq_div_pow, and_mask6]
    norm_num
    exact byte2_shape (v / 64 % 64) hy
  have hb3 : 0xC0 ||| (v &&& 0x3F) = 192 + v % 64 := by
    rw [and_mask6]
    exact byte3_shape (v % 64) hz
  have hgen : generate_dsky_packet a v =
      (a / 8, 64 + (a % 8 * 8 + v / 4096 % 8), 128 + v / 64 % 64, 192 + v % 64) := by
    unfold generate_dsky_packet
    rw [hb0, hb1, hb2, hb3]
  rw [hgen]
  simp only [parse_dsky_packet]
  have hfr : a / 8 &&& 0xC0 = 0x00 ∧
      (64 + (a % 8 * 8 + v / 4096 % 8)) &&& 0xC0 = 0x40 ∧
      (128 + v / 64 % 64) &&& 0xC0 = 0x80 ∧
      (192 + v % 64) &&& 0xC0 = 0xC0 :=
    ⟨frame0_tag _ hb0v, frame1_tag _ (by omega), frame2_tag _ hy, frame3_tag _ hz⟩
  rw [if_pos hfr]
  have haddr : ((a / 8 &&& 0x3F) <<< 3) ||| (((64 + (a % 8 * 8 + v / 4096 % 8)) >>> 3) &&& 0x07)
      = a := by
    rw [and_mask6, Nat.mod_eq_of_lt (by omega : a / 8 < 64),
      byte1_mid3 (a % 8) hm (v / 4096 % 8) hw, Nat.shiftLeft_eq,
      mul_comm (a / 8) (2 ^ 3), or_mul_add (a / 8) (a % 8) (by norm_num; omega)]
    omega
  have hcomb : (((64 + (a % 8 * 8 + v / 4096 % 8)) &&& 0x07) <<< 12) |||
      (((128 + v / 64 % 64) &&& 0x3F) <<< 6) ||| ((192 + v % 64) &&& 0x3F) = v := by
    rw [byte1_low3 (a % 8) hm (v / 4096 % 8) hw, byte2_low6 _ hy, byte3_low6 _ hz]
    have h1 : (v / 4096 % 8) <<< 12 ||| (v / 64 % 64) <<< 6
        = 2 ^ 12 * (v / 4096 % 8) + v / 64 % 64 * 64 := by
      rw [Nat.shiftLeft_eq (v / 4096 % 8) 12, mul_comm (v / 4096 % 8) (2 ^ 12),
        or_mul_add (v / 4096 % 8) ((v / 64 % 64) <<< 6)
          (by rw [Nat.shiftLeft_eq]; norm_num; try omega),
        Nat.shiftLeft_eq (v / 64 % 64) 6]
    rw [h1]
    have h2 : 2 ^ 12 * (v / 4096 % 8) + v / 64 % 64 * 64
        = 2 ^ 6 * (64 * (v / 4096 % 8) + v / 64 % 64) := by ring
    rw [h2, or_mul_add (64 * (v / 4096 % 8) + v / 64 % 64) (v % 64) (by norm_num; omega)]
    omega
  rw [haddr, hcomb]

/-- C1 witness at the spec example, channel 0o163 with value 0o12345. -/
theorem claim_C1_witness :
    parse_dsky_packet (generate_dsky_packet 0o163 0o12345) = some (0o163, 0o12345) :=
  claim_C1_roundtrip 0o163 0o12345 (by norm_num) (by norm_num)

/-! Claim C5, on the bank-select registers from memory/registers.rs. -/

theorem refresh_reads (r : Registers) (he : r.erasable_bank < 8) (hf : r.fixed_bank < 32) :
    r.refresh_bank_registers.erasable_bank = r.erasable_bank ∧
    r.refresh_bank_registers.fixed_bank = r.fixed_bank ∧
    r.refresh_bank_registers.read 0 REGISTER_ERASABLE_BANK = 256 * r.erasable_bank ∧
    r.refresh_bank_registers.read 0 REGISTER_FIXED_BANK = 1024 * r.fixed_bank ∧
    r.refresh_bank_registers.read 0 REGISTER_COMBINED_BANK =
      1024 * r.fixed_bank + r.erasable_bank := by
  have he7 : r.erasable_bank &&& 0x7 = r.erasable_bank := by
    rw [and_mask3]; exact Nat.mod_eq_of_lt he
  have hf31 : r.fixed_bank &&& 0x1F = r.fixed_bank := by
    rw [and_mask5]; exact Nat.mod_eq_of_lt hf
  have hshl8 : r.erasable_bank <<< 8 = 256 * r.erasable_bank := by
    rw [Nat.shiftLeft_eq]; ring
  have hshl10 : r.fixed_bank <<< 10 = 1024 * r.fixed_bank := by
    rw [Nat.shiftLeft_eq]; ring
  have hshr : (256 * r.erasable_bank) >>> 8 = r.erasable_bank := by
    rw [Nat.shiftRight_eq_div_pow]
    norm_num
  have hcomb : r.erasable_bank ||| 1024 * r.fixed_bank =
      1024 * r.fixed_bank + r.erasable_bank := by
    rw [Nat.lor_comm, show (1024 : Nat) = 2 ^ 10 from rfl,
      or_mul_add r.fixed_bank r.erasable_bank (by norm_num; omega)]
  unfold Registers.refresh_bank_registers Registers.read
  simp only [REGISTER_ERASABLE_BANK, REGISTER_FIXED_BANK, REGISTER_COMBINED_BANK,
    REGISTER_ACCUMULATOR, REGISTER_MULTIPLIER, REGISTER_ZERO, REGISTER_NULL]
  rw [he7, hf31, hshl8, hshl10, hshr, hcomb]
  simp only [updf]
  norm_num
  refine ⟨?_, ?_, ?_⟩
  · rw [and_mask15]; omega
  · rw [and_mask15]; omega
  · rw [and_mask15]; omega

/-- C5: after any 16-bit write to any one of the three bank-select CPU
registers, the three registers read as consistent projections of the
single (erasable_bank, fixed_bank) pair: the erasable-bank register holds
the pair entry in bits 8 to 10, the fixed-bank register holds its entry in
bits 10 to 14, and the combined register holds both. -/
theorem claim_C5_bank_consistency (r : Registers) (v : Nat) (_hv : v < 65536)
    (he : r.erasable_bank < 8) (hf : r.fixed_bank < 32) (t : Nat)
    (ht : t = REGISTER_ERASABLE_BANK ∨ t = REGISTER_FIXED_BANK ∨ t = REGISTER_COMBINED_BANK) :
    ∃ e f, e < 8 ∧ f < 32 ∧
      (r.write 0 t v).erasable_bank = e ∧
      (r.write 0 t v).fixed_bank = f ∧
      (r.write 0 t v).read 0 REGISTER_ERASABLE_BANK = 256 * e ∧
      (r.write 0 t v).read 0 REGISTER_FIXED_BANK = 1024 * f ∧
      (r.write 0 t v).read 0 REGISTER_COMBINED_BANK = 1024 * f + e := by
  have hand_e : (v &&& 0x0700) >>> 8 < 8 := by
    have hle : v &&& 0x0700 ≤ 0x0700 := Nat.and_le_right
    rw [Nat.shiftRight_eq_div_pow]
    norm_num
    omega
  have hand_f : (v &&& 0x7C00) >>> 10 < 32 := by
    have hle : v &&& 0x7C00 ≤ 0x7C00 := Nat.and_le_right
    rw [Nat.shiftRight_eq_div_pow]
    norm_num
    omega
  have hand_e3 : v &&& 0x7 < 8 := by
    rw [and_mask3]; omega
  rcases ht with ht | ht | ht
  · subst ht
    have hw : r.write 0 REGISTER_ERASABLE_BANK v =
        Registers.refresh_bank_registers
          { r with erasable_bank := (v &&& 0x0700) >>> 8 } := by
      unfold Registers.write
      norm_num [REGISTER_ERASABLE_BANK, REGISTER_FIXED_BANK, REGISTER_COMBINED_BANK]
    rw [hw]
    exact ⟨_, _, hand_e, hf, refresh_reads _ hand_e hf⟩
  · subst ht
    have hw : r.write 0 REGISTER_FIXED_BANK v =
        Registers.refresh_bank_registers
          { r with fixed_bank := (v &&& 0x7C00) >>> 10 } := by
      unfold Registers.write
      norm_num [REGISTER_ERASABLE_BANK, REGISTER_FIXED_BANK, REGISTER_COMBINED_BANK]
    rw [hw]
    exact ⟨_, _, he, hand_f, refresh_reads _ he hand_f⟩
  · subst ht
    have hw : r.write 0 REGISTER_COMBINED_BANK v =
        Registers.refresh_bank_registers
          { r with erasable_bank := v &&& 0x7, fixed_bank := (v &&& 0x7C00) >>> 10 } := by
      unfold Registers.write
      norm_num [REGISTER_ERASABLE_BANK, REGISTER_FIXED_BANK, REGISTER_COMBINED_BANK]
    rw [hw]
    exact ⟨_, _, hand_e3, hand_f, refresh_reads _ hand_e3 hand_f⟩

/-- C5 witness: a concrete write of 0o12345 to the combined register. -/
theorem claim_C5_witness :
    ∃ e f, e < 8 ∧ f < 32 ∧
      ((Registers.new.write 0 REGISTER_COMBINED_BANK 0o12345)).erasable_bank = e ∧
      ((Registers.new.write 0 REGISTER_COMBINED_BANK 0o12345)).fixed_bank = f ∧
      ((Registers.new.write 0 REGISTER_COMBINED_BANK 0o12345)).read 0 REGISTER_ERASABLE_BANK =
        256 * e ∧
      ((Registers.new.write 0 REGISTER_COMBINED_BANK 0o12345)).read 0 REGISTER_FIXED_BANK =
        1024 * f ∧
      ((Registers.new.write 0 REGISTER_COMBINED_BANK 0o12345)).read 0 REGISTER_COMBINED_BANK =
        1024 * f + e :=
  claim_C5_bank_consistency Registers.new 0o12345 (by norm_num) (by decide) (by decide)
    REGISTER_COMBINED_BANK (Or.inr (Or.inr rfl))

/-! Claim C8, on register 5 from memory/registers.rs. -/

/-- C8 counterexample: the claim says a write masks the stored value to 12
bits, but writing 0o17777 to register 5 stores 0o17777 unmasked, because
the trailing unconditional store in the Rust match overwrites the masked
value. -/
theorem claim_C8_counterexample :
    (Registers.new.write 0 REGISTER_ZERO 0o17777).registers REGISTER_ZERO = 0o17777 ∧
    (0o17777 : Nat) % 4096 ≠ 0o17777 := by
  constructor
  · decide
  · decide

/-- C8 (amended): register 5 is masked to 12 bits on read, so every read
returns the stored value modulo 2^12; the write itself stores the full
value unmasked, the write-side mask in the source being dead code. -/
theorem claim_C8_register5 (r : Registers) (v : Nat) (_hv : v < 65536) :
    (r.write 0 REGISTER_ZERO v).registers REGISTER_ZERO = v ∧
    (r.write 0 REGISTER_ZERO v).read 0 REGISTER_ZERO = v % 4096 ∧
    r.read 0 REGISTER_ZERO = r.registers REGISTER_ZERO % 4096 ∧
    r.read 0 REGISTER_ZERO < 4096 := by
  refine ⟨?_, ?_, ?_, ?_⟩
  · unfold Registers.write
    norm_num [REGISTER_ERASABLE_BANK, REGISTER_FIXED_BANK, REGISTER_COMBINED_BANK,
      REGISTER_ZERO, updf]
  · unfold Registers.write Registers.read
    norm_num [REGISTER_ERASABLE_BANK, REGISTER_FIXED_BANK, REGISTER_COMBINED_BANK,
      REGISTER_ZERO, REGISTER_ACCUMULATOR, REGISTER_MULTIPLIER, REGISTER_NULL, updf]
    rw [and_mask12]
  · unfold Registers.read
    norm_num [REGISTER_ZERO, REGISTER_ACCUMULATOR, REGISTER_MULTIPLIER, REGISTER_NULL]
    rw [and_mask12]
  · unfold Registers.read
    norm_num [REGISTER_ZERO, REGISTER_ACCUMULATOR, REGISTER_MULTIPLIER, REGISTER_NULL]
    rw [and_mask12]
    omega

/-- C8 witness at the counterexample value. -/
theorem claim_C8_witness :
    (Registers.new.write 0 REGISTER_ZERO 0o17777).registers REGISTER_ZERO = 0o17777 ∧
    (Registers.new.write 0 REGISTER_ZERO 0o17777).read 0 REGISTER_ZERO = 0o17777 % 4096 :=
  ⟨(claim_C8_register5 Registers.new 0o17777 (by norm_num)).1,
   (claim_C8_register5 Registers.new 0o17777 (by norm_num)).2.1⟩

/-! Claim C9, on the special-register range of the memory map. -/

/-- C9: every write through the memory map to an address in 0o32 to 0o60
is dispatched to SpecialRegisters write, which only logs, so the whole
emulator state is unchanged and every subsequent read is unchanged. -/
theorem claim_C9_discard (m : MemoryMap) (idx val : Nat)
    (h1 : 0o32 ≤ idx) (h2 : idx ≤ 0o60) :
    m.write idx val = m ∧ ∀ j, (m.write idx val).read j = m.read j := by
  have hw : m.write idx val = m := by
    unfold MemoryMap.write
    rw [if_neg (by omega), if_neg (by omega), if_neg (by omega), if_pos (by omega)]
    rfl
  exact ⟨hw, fun j => by rw [hw]⟩

/-- C9 witness: a concrete discarded write at address 0o40. -/
theorem claim_C9_witness :
    MemoryMap.new_blank.write 0o40 123 = MemoryMap.new_blank :=
  (claim_C9_discard MemoryMap.new_blank 0o40 123 (by norm_num) (by norm_num)).1

/-! Claim C10, on the unbacked timer-range slots of the memory map. -/

/-- C10: for every state, reading linear address 0o24 (the T2 slot), 0o30
or 0o31 yields 0, because the clock block only backs 0o25 to 0o27, and a
write to any of the three addresses leaves the state unchanged. -/
theorem claim_C10_clock_slots (m : MemoryMap) (val : Nat) :
    m.read 0o24 = 0 ∧ m.read 0o30 = 0 ∧ m.read 0o31 = 0 ∧
    m.write 0o24 val = m ∧ m.write 0o30 val = m ∧ m.write 0o31 val = m :=
  ⟨rfl, rfl, rfl, rfl, rfl, rfl⟩

/-! Claim C4, on bzf from instructions/instructions.rs. -/

/-- C4 counterexample: the claim says BZF with A = 0x7FFF takes the branch
at cost 1, but the handler only matches the raw values 0x0000 and 0xFFFF,
so with A = 0x7FFF it falls through with cost 2 and PC still 0x800. -/
theorem claim_C4_counterexample :
    (bzf_ovf_cpu.bzf bzf_cmd).2 = 2 ∧
    ((bzf_ovf_cpu.bzf bzf_cmd).1.read REGISTER_COUNTER).1 = 0x800 := by
  constructor
  · decide
  · decide

/-- C4 (amended): BZF branches to the 12-bit target exactly when the raw
16-bit accumulator is 0x0000 or 0xFFFF, at cost 1; for any other value,
0x7FFF and 0x0001 included, it only clears the extend flag and costs 2. -/
theorem claim_C4_bzf (c : Cpu) (cmd : Instructions) :
    (((c.read REGISTER_ACCUMULATOR).1 = 0 ∨ (c.read REGISTER_ACCUMULATOR).1 = 0xFFFF) →
      (c.bzf cmd).2 = 1 ∧
      ((c.bzf cmd).1.read REGISTER_COUNTER).1 = cmd.get_data &&& 0xFFF) ∧
    (((c.read REGISTER_ACCUMULATOR).1 ≠ 0 ∧ (c.read REGISTER_ACCUMULATOR).1 ≠ 0xFFFF) →
      (c.bzf cmd).2 = 2 ∧ (c.bzf cmd).1 = { c with ec_flag := false }) := by
  have hra : c.read REGISTER_ACCUMULATOR = (c.mem.read 0, c) := by
    unfold Cpu.read
    norm_num [REGISTER_ACCUMULATOR]
  constructor
  · intro h
    rw [hra] at h
    norm_num at h
    simp only [Cpu.bzf, Cpu.read, Cpu.write, REGISTER_ACCUMULATOR, REGISTER_COUNTER]
    norm_num
    rw [if_pos h]
    constructor
    · rfl
    · by_cases hd : cmd.get_data % 4096 = 0o067
      · simp only [Cpu.read, MemoryMap.read, MemoryMap.write, Registers.read,
          Registers.write, REGISTER_ACCUMULATOR, REGISTER_MULTIPLIER, REGISTER_ZERO,
          REGISTER_NULL, REGISTER_COMBINED_BANK, REGISTER_FIXED_BANK,
          REGISTER_ERASABLE_BANK, updf_same, updf_other, and_mask8, and_mask12, hd]
        norm_num
        simp only [updf_same]
      · simp only [Cpu.read, MemoryMap.read, MemoryMap.write, Registers.read,
          Registers.write, REGISTER_ACCUMULATOR, REGISTER_MULTIPLIER, REGISTER_ZERO,
          REGISTER_NULL, REGISTER_COMBINED_BANK, REGISTER_FIXED_BANK,
          REGISTER_ERASABLE_BANK, updf_same, updf_other, and_mask8, and_mask12, hd]
        norm_num
        simp only [updf_same]
        omega
  · intro h
    rw [hra] at h
    norm_num at h
    simp only [Cpu.bzf, Cpu.read, Cpu.write, REGISTER_ACCUMULATOR, REGISTER_COUNTER]
    norm_num
    rw [if_neg (not_or.mpr h)]
    exact ⟨rfl, rfl⟩

/-- C4 witness: with A = 0xFFFF the branch is taken at cost 1 and PC is
the 12-bit target 0xC05; the claimed fall-through at A = 0x0001 costs 2. -/
theorem claim_C4_witness :
    (bzf_negzero_cpu.bzf bzf_cmd).2 = 1 ∧
    ((bzf_negzero_cpu.bzf bzf_cmd).1.read REGISTER_COUNTER).1 = bzf_cmd.get_data &&& 0xFFF ∧
    ((((Cpu.new MemoryMap.new_blank).write REGISTER_ACCUMULATOR 0x0001).bzf bzf_cmd)).2 = 2 := by
  refine ⟨?_, ?_, ?_⟩
  · exact ((claim_C4_bzf bzf_negzero_cpu bzf_cmd).1 (Or.inr (by decide))).1
  · exact ((claim_C4_bzf bzf_negzero_cpu bzf_cmd).1 (Or.inr (by decide))).2
  · exact ((claim_C4_bzf ((Cpu.new MemoryMap.new_blank).write REGISTER_ACCUMULATOR 0x0001)
      bzf_cmd).2 ⟨by decide, by decide⟩).1

/-! Claim C2, on EXTEND followed by INDEX from cpu.rs. -/

/-- C2: evaluating the code on EXTEND at 0x200 followed by INDEX 0o100
(with M at 0o100 holding 42).  The first step sets the extend flag, and
step_programmed deliberately skips clearing it for INDEX, but execute()
has no INDEX arm: its default arm clears the extend flag and zeroes the
index accumulator, so after the INDEX step the extend flag is false, the
index accumulator is 0 rather than M at 0o100 = 42, and the next
instruction word would decode without bit 15, from the basic table. -/
theorem claim_C2_bug_run :
    ((step_once extend_index_cpu).getD extend_index_cpu).ec_flag = true ∧
    (step_twice extend_index_cpu).isSome = true ∧
    ((step_twice extend_index_cpu).getD extend_index_cpu).ec_flag = false ∧
    ((step_twice extend_index_cpu).getD extend_index_cpu).idx_val = 0 ∧
    (extend_index_cpu.read 0o100).1 = 42 ∧
    ((step_twice extend_index_cpu).getD extend_index_cpu).calculate_instr_data &&& 0x8000
      = 0 := by
  refine ⟨?_, ?_, ?_, ?_, ?_, ?_⟩ <;> decide

/-! Claim C3, on interrupt dispatch from cpu.rs. -/

theorem add_s15_lt (a b : Nat) : add_s15 a b < 32768 := by
  unfold add_s15
  exact lt_of_le_of_lt Nat.and_le_right (by norm_num)

theorem handle_go_finds (c : Cpu) :
    ∀ (fuel j i : Nat), j ≤ i → i < j + fuel →
      c.rupt &&& (1 <<< i) ≠ 0 →
      (∀ k, j ≤ k → k < i → c.rupt &&& (1 <<< k) = 0) →
      c.handle_interrupt_go j fuel = c.dispatch_rupt i := by
  intro fuel
  induction fuel with
  | zero => intro j i hji hfu hbit hmin; omega
  | succ n ih =>
    intro j i hji hfu hbit hmin
    by_cases hji2 : j = i
    · subst hji2
      simp only [Cpu.handle_interrupt_go]
      rw [if_pos hbit]
    · have hlt : j < i := by omega
      have hz : ¬(c.rupt &&& (1 <<< j) ≠ 0) := by
        simpa using hmin j le_rfl hlt
      simp only [Cpu.handle_interrupt_go]
      rw [if_neg hz]
      exact ih (j + 1) i (by omega) (by omega) hbit (fun k hk1 hk2 => hmin k (by omega) hk2)

theorem dispatch_rupt_spec (c : Cpu) (i : Nat) (hi : i < 10) (hec : c.ec_flag = false) :
    (c.dispatch_rupt i).gint = false ∧
    (c.dispatch_rupt i).idx_val = 0 ∧
    ((c.dispatch_rupt i).read REGISTER_COUNTER).1 = 0x800 + 4 * i ∧
    ((c.dispatch_rupt i).read REGISTER_COUNTER_BACKUP).1 = (c.read REGISTER_COUNTER).1 + 1 ∧
    ((c.dispatch_rupt i).read REGISTER_INSTRUCTION).1 = add_s15 c.ir c.idx_val ∧
    (c.dispatch_rupt i).rupt = c.rupt ^^^ (1 <<< i) := by
  have hpc55 : ¬(0x800 + i * 4 = 0o067) := by omega
  have hcomp := add_s15_lt c.ir c.idx_val
  unfold Cpu.dispatch_rupt Cpu.update_pc
  simp only [Cpu.read, Cpu.write, Cpu.calculate_instr_data, MemoryMap.read, MemoryMap.write,
    Registers.read, Registers.write, REGISTER_ACCUMULATOR, REGISTER_MULTIPLIER, REGISTER_ZERO,
    REGISTER_NULL, REGISTER_COMBINED_BANK, REGISTER_FIXED_BANK, REGISTER_ERASABLE_BANK,
    REGISTER_COUNTER, REGISTER_COUNTER_BACKUP, REGISTER_INSTRUCTION,
    updf_same, updf_other, and_mask8, and_mask12, and_mask15, hec, hpc55]
  norm_num
  refine ⟨?_, ?_, ?_⟩
  · rw [updf_same]
    omega
  · rw [updf_other _ _ _ _ (by norm_num), updf_other _ _ _ _ (by norm_num),
      updf_other _ _ _ _ (by norm_num), updf_other _ _ _ _ (by norm_num), updf_same]
    omega
  · rw [updf_other _ _ _ _ (by norm_num), updf_other _ _ _ _ (by norm_num), updf_same]
    omega

/-- C3 counterexample: with only pending bit 10 (the manual interrupt, an
index the claim lists as in use) and every deliverability condition met,
the dispatch loop, which scans indices 0 to 9, finds nothing: the step
leaves the enable set, PC and the pending word unchanged, although it
still marks in-interrupt. -/
theorem claim_C3_counterexample :
    (rupt_manual_cpu.step_programmed).isSome = true ∧
    ((rupt_manual_cpu.step_programmed).getD (rupt_manual_cpu, 1)).1.gint = true ∧
    ((rupt_manual_cpu.step_programmed).getD (rupt_manual_cpu, 1)).1.rupt = 1 <<< 10 ∧
    (((rupt_manual_cpu.step_programmed).getD (rupt_manual_cpu, 1)).1.read
      REGISTER_COUNTER).1 = 0x800 ∧
    ((rupt_manual_cpu.step_programmed).getD (rupt_manual_cpu, 1)).1.is_irupt = true := by
  refine ⟨?_, ?_, ?_, ?_, ?_⟩ <;> decide

/-- C3 (amended): when the extend flag is clear, the global enable is set,
the CPU is not in an interrupt, the accumulator is not in overflow, and
the lowest pending index i is below 10, the next programmed step dispatches
index i: it clears the enable, backs up PC+1 and the IR-plus-index
composite, clears the index, sets PC to 0x800 + 4i, clears exactly bit i
and marks in-interrupt.  A pending word whose only set bit is index 10 is
never dispatched. -/
theorem claim_C3_dispatch (c : Cpu) (i : Nat) (hi : i < 10)
    (hec : c.ec_flag = false) (hg : c.gint = true) (hirq : c.is_irupt = false)
    (hovf : c.mem.read 0 &&& 0xC000 = 0 ∨ c.mem.read 0 &&& 0xC000 = 0xC000)
    (hbit : c.rupt &&& (1 <<< i) ≠ 0)
    (hmin : ∀ k, k < i → c.rupt &&& (1 <<< k) = 0) :
    c.step_programmed = some ({ c.dispatch_rupt i with is_irupt := true }, 0) ∧
    (c.dispatch_rupt i).gint = false ∧
    (c.dispatch_rupt i).idx_val = 0 ∧
    ((c.dispatch_rupt i).read REGISTER_COUNTER).1 = 0x800 + 4 * i ∧
    ((c.dispatch_rupt i).read REGISTER_COUNTER_BACKUP).1 = (c.read REGISTER_COUNTER).1 + 1 ∧
    ((c.dispatch_rupt i).read REGISTER_INSTRUCTION).1 = add_s15 c.ir c.idx_val ∧
    (c.dispatch_rupt i).rupt = c.rupt ^^^ (1 <<< i) := by
  have hdisp := dispatch_rupt_spec c i hi hec
  have hho : c.handle_interrupt = c.dispatch_rupt i :=
    handle_go_finds c 10 0 i (Nat.zero_le _) (by omega) hbit (fun k _ hk2 => hmin k hk2)
  have hnd : c.interrupt_disabled = false := by
    unfold Cpu.interrupt_disabled Cpu.is_overflow Cpu.read
    rw [hec, hg, hirq]
    norm_num [REGISTER_ACCUMULATOR]
    rcases hovf with h | h <;> simp [h]
  have hp : c.interrupt_pending = true := by
    unfold Cpu.interrupt_pending
    have hne : c.rupt ≠ 0 := by
      intro h0
      rw [h0] at hbit
      exact hbit (Nat.zero_and _)
    simpa using hne
  refine ⟨?_, hdisp.1, hdisp.2.1, hdisp.2.2.1, hdisp.2.2.2.1, hdisp.2.2.2.2.1,
    hdisp.2.2.2.2.2⟩
  unfold Cpu.step_programmed
  rw [hnd, hp]
  norm_num
  rw [hho]
  simp

/-- C3 witness at the spec scenario: pending bits 4 and 8 dispatch index 4,
PC becomes 0x810 and the pending word becomes bit 8 alone. -/
theorem claim_C3_witness :
    rupt_pair_cpu.step_programmed =
      some ({ rupt_pair_cpu.dispatch_rupt 4 with is_irupt := true }, 0) ∧
    (rupt_pair_cpu.dispatch_rupt 4).gint = false ∧
    ((rupt_pair_cpu.dispatch_rupt 4).read REGISTER_COUNTER).1 = 0x810 ∧
    (rupt_pair_cpu.dispatch_rupt 4).rupt = 0x100 := by
  have h := claim_C3_dispatch rupt_pair_cpu 4 (by norm_num) (by decide) (by decide)
    (by decide) (Or.inl (by decide)) (by decide) (by decide)
  refine ⟨h.1, h.2.1, ?_, ?_⟩
  · rw [h.2.2.2.1]
  · rw [h.2.2.2.2.2.2]
    decide

/-! Claim C7, on the GOJ unprogrammed sequence from cpu.rs. -/

theorem or_bit7_and (x : Nat) : (0o200 ||| x) &&& 0o200 = 0o200 := by
  have h := Nat.and_two_pow (0o200 ||| x) 7
  norm_num at h
  rw [h]
  have ht : Nat.testBit 128 7 = true := by decide
  rw [ht]
  simp

theorem wc_mem (c : Cpu) (p v : Nat) : (c.write_chan p v).mem = c.mem.write_chan p v := rfl

theorem wc_gint (c : Cpu) (p v : Nat) : (c.write_chan p v).gint = c.gint := rfl

theorem wc_irupt (c : Cpu) (p v : Nat) : (c.write_chan p v).is_irupt = c.is_irupt := rfl

theorem mwc_pm_05 (m : MemoryMap) (v : Nat) :
    (m.write_chan 0o05 v).ioc.port_map = updf m.ioc.port_map 0o05 v := rfl

theorem mwc_regs_05 (m : MemoryMap) (v : Nat) :
    (m.write_chan 0o05 v).regs = m.regs := rfl

theorem mwc_pm_06 (m : MemoryMap) (v : Nat) :
    (m.write_chan 0o06 v).ioc.port_map = updf m.ioc.port_map 0o06 v := rfl

theorem mwc_regs_06 (m : MemoryMap) (v : Nat) :
    (m.write_chan 0o06 v).regs = m.regs := rfl

theorem mwc_pm_10 (m : MemoryMap) (v : Nat) :
    (m.write_chan 0o10 v).ioc.port_map = updf m.ioc.port_map 0o10 v := rfl

theorem mwc_regs_10 (m : MemoryMap) (v : Nat) :
    (m.write_chan 0o10 v).regs = m.regs := rfl

theorem mwc_pm_11 (m : MemoryMap) (v : Nat) :
    (m.write_chan 0o11 v).ioc.port_map = updf m.ioc.port_map 0o11 v := rfl

theorem mwc_regs_11 (m : MemoryMap) (v : Nat) :
    (m.write_chan 0o11 v).regs = m.regs := rfl

theorem mwc_pm_12 (m : MemoryMap) (v : Nat) :
    (m.write_chan 0o12 v).ioc.port_map = updf m.ioc.port_map 0o12 v := rfl

theorem mwc_regs_12 (m : MemoryMap) (v : Nat) :
    (m.write_chan 0o12 v).regs = m.regs := rfl

theorem mwc_pm_13 (m : MemoryMap) (v : Nat) :
    (m.write_chan 0o13 v).ioc.port_map = updf m.ioc.port_map 0o13 v := rfl

theorem mwc_regs_13 (m : MemoryMap) (v : Nat) :
    (m.write_chan 0o13 v).regs = m.regs := rfl

theorem mwc_pm_14 (m : MemoryMap) (v : Nat) :
    (m.write_chan 0o14 v).ioc.port_map = updf m.ioc.port_map 0o14 v := rfl

theorem mwc_regs_14 (m : MemoryMap) (v : Nat) :
    (m.write_chan 0o14 v).regs = m.regs := rfl

theorem mwc_pm_34 (m : MemoryMap) (v : Nat) :
    (m.write_chan 0o34 v).ioc.port_map = updf m.ioc.port_map 0o34 v := rfl

theorem mwc_regs_34 (m : MemoryMap) (v : Nat) :
    (m.write_chan 0o34 v).regs = m.regs := rfl

theorem mwc_pm_35 (m : MemoryMap) (v : Nat) :
    (m.write_chan 0o35 v).ioc.port_map = updf m.ioc.port_map 0o35 v := rfl

theorem mwc_regs_35 (m : MemoryMap) (v : Nat) :
    (m.write_chan 0o35 v).regs = m.regs := rfl

theorem mwc_pm_33 (m : MemoryMap) (v : Nat) :
    (m.write_chan 0o33 v).ioc.port_map = updf m.ioc.port_map 0o33 v := rfl

theorem mwc_regs_33 (m : MemoryMap) (v : Nat) :
    (m.write_chan 0o33 v).regs = m.regs := rfl

theorem mwc_pm_163 (m : MemoryMap) (v : Nat) :
    (m.write_chan 0o163 v).ioc.port_map = updf m.ioc.port_map 0o163 v := rfl

theorem mwc_regs_163 (m : MemoryMap) (v : Nat) :
    (m.write_chan 0o163 v).regs = m.regs := rfl

theorem read_chan_33_val (c : Cpu) : c.read_chan 0o33 = 0o77777 := rfl

theorem upd_pc_ioc (c : Cpu) : (c.update_pc 0x800).mem.ioc = c.mem.ioc := rfl

theorem upd_pc_gint (c : Cpu) : (c.update_pc 0x800).gint = c.gint := rfl

theorem upd_pc_irupt (c : Cpu) : (c.update_pc 0x800).is_irupt = c.is_irupt := rfl

theorem upd_pc_regs (c : Cpu) : (c.update_pc 0x800).mem.regs.registers =
    updf (updf c.mem.regs.registers 5 (0x800 &&& 0o7777)) 5 0x800 := rfl

theorem cpu_read5 (c : Cpu) : (c.read REGISTER_COUNTER).1 = c.mem.regs.registers 5 &&& 0o7777 := rfl

theorem and_77777_75777 : (0o77777 : Nat) &&& 0o75777 = 0o75777 := by decide

theorem handle_goj_stage (c : Cpu) :
    ∃ cmid : Cpu, c.handle_goj = (cmid.restart, 2) ∧
      cmid.mem.ioc.port_map =
        updf (updf (updf (updf (updf (updf (updf (updf (updf (updf
          c.mem.ioc.port_map 0o05 0) 0o06 0) 0o10 0) 0o11 0) 0o12 0) 0o13 0) 0o14 0)
          0o34 0) 0o35 0) 0o33 0o75777 ∧
      cmid.mem.regs = c.mem.regs ∧
      cmid.gint = false ∧ cmid.is_irupt = false := by
  refine ⟨_, rfl, ?_, ?_, ?_, ?_⟩
  · simp only [wc_mem, mwc_pm_05, mwc_pm_06, mwc_pm_10, mwc_pm_11, mwc_pm_12, mwc_pm_13,
      mwc_pm_14, mwc_pm_34, mwc_pm_35, mwc_pm_33, read_chan_33_val, and_77777_75777]
  · simp only [wc_mem, mwc_regs_05, mwc_regs_06, mwc_regs_10, mwc_regs_11, mwc_regs_12,
      mwc_regs_13, mwc_regs_14, mwc_regs_34, mwc_regs_35, mwc_regs_33]
  · rfl
  · rfl

theorem restart_spec (c : Cpu) :
    ∃ x, (c.restart).mem.ioc.port_map = updf c.mem.ioc.port_map 0o163 (0o200 ||| x) ∧
      (c.restart).mem.regs.registers 5 = 0x800 ∧
      (c.restart).gint = false ∧
      (c.restart).is_irupt = c.is_irupt := by
  refine ⟨({ c.update_pc 0x800 with gint := false } : Cpu).read_chan 0o163, ?_, ?_, ?_, ?_⟩
  · simp only [Cpu.restart, wc_mem, mwc_pm_163, upd_pc_ioc]
  · simp only [Cpu.restart, wc_mem, mwc_regs_163, upd_pc_regs, updf_same]
  · simp only [Cpu.restart, wc_gint]
  · simp only [Cpu.restart, wc_irupt, upd_pc_irupt]

theorem read_chan_05 (c : Cpu) : c.read_chan 0o05 = c.mem.ioc.port_map 0o05 := rfl

theorem read_chan_06 (c : Cpu) : c.read_chan 0o06 = c.mem.ioc.port_map 0o06 := rfl

theorem read_chan_10 (c : Cpu) : c.read_chan 0o10 = 0 := rfl

theorem read_chan_11 (c : Cpu) : c.read_chan 0o11 = c.mem.ioc.port_map 0o11 := rfl

theorem read_chan_12 (c : Cpu) : c.read_chan 0o12 = c.mem.ioc.port_map 0o12 := rfl

theorem read_chan_13 (c : Cpu) : c.read_chan 0o13 = c.mem.ioc.port_map 0o13 &&& 0x47CF := rfl

theorem read_chan_14 (c : Cpu) : c.read_chan 0o14 = c.mem.ioc.port_map 0o14 := rfl

theorem goj_spec (c : Cpu) :
    (c.handle_goj).1.mem.ioc.port_map 0o05 = 0 ∧
    (c.handle_goj).1.mem.ioc.port_map 0o06 = 0 ∧
    (c.handle_goj).1.mem.ioc.port_map 0o10 = 0 ∧
    (c.handle_goj).1.mem.ioc.port_map 0o11 = 0 ∧
    (c.handle_goj).1.mem.ioc.port_map 0o12 = 0 ∧
    (c.handle_goj).1.mem.ioc.port_map 0o13 = 0 ∧
    (c.handle_goj).1.mem.ioc.port_map 0o14 = 0 ∧
    (c.handle_goj).1.mem.ioc.port_map 0o34 = 0 ∧
    (c.handle_goj).1.mem.ioc.port_map 0o35 = 0 ∧
    (c.handle_goj).1.read_chan 0o05 = 0 ∧
    (c.handle_goj).1.read_chan 0o06 = 0 ∧
    (c.handle_goj).1.read_chan 0o10 = 0 ∧
    (c.handle_goj).1.read_chan 0o11 = 0 ∧
    (c.handle_goj).1.read_chan 0o12 = 0 ∧
    (c.handle_goj).1.read_chan 0o13 = 0 ∧
    (c.handle_goj).1.read_chan 0o14 = 0 ∧
    (c.handle_goj).1.mem.ioc.port_map 0o33 = 0o75777 ∧
    (c.handle_goj).1.gint = false ∧
    (c.handle_goj).1.is_irupt = false ∧
    ((c.handle_goj).1.read REGISTER_COUNTER).1 = 0x800 ∧
    (c.handle_goj).1.mem.ioc.port_map 0o163 &&& 0o200 = 0o200 := by
  obtain ⟨cmid, heq, hpm, hregs, hgm, him⟩ := handle_goj_stage c
  obtain ⟨x, hrpm, hr5, hrg, hri⟩ := restart_spec cmid
  have h1 : (c.handle_goj).1 = cmid.restart := by rw [heq]
  rw [h1, read_chan_05, read_chan_06, read_chan_10, read_chan_11, read_chan_12,
    read_chan_13, read_chan_14, cpu_read5, hrpm, hrg, hri, hr5, him, hpm]
  simp only [updf]
  norm_num
  exact ⟨by decide, or_bit7_and x⟩

/-- C7 (amended): after the GOJ sequence executes, the stored port-array
slots of the nine listed channels are zero and reads of channels 0o05,
0o06, 0o10, 0o11, 0o12, 0o13, 0o14 return zero (reads of 0o34 and 0o35
delegate to the downlink peripheral); the stored slot of channel 0o33 has
bit 0o02000 cleared (a read of 0o33 returns the constant 0o77777); the
global interrupt enable is off, in-interrupt is false, PC is 0x800, and
bit 0o200 is set in the stored slot of channel 0o163. -/
theorem claim_C7_goj (c : Cpu) (rest : List UnprogSequence)
    (h : c.unprog = UnprogSequence.GOJ :: rest) :
    (c.step).isSome = true ∧
    ∀ s n, c.step = some (s, n) →
      n = 2 ∧
      (s.mem.ioc.port_map 0o05 = 0 ∧
       s.mem.ioc.port_map 0o06 = 0 ∧
       s.mem.ioc.port_map 0o10 = 0 ∧
       s.mem.ioc.port_map 0o11 = 0 ∧
       s.mem.ioc.port_map 0o12 = 0 ∧
       s.mem.ioc.port_map 0o13 = 0 ∧
       s.mem.ioc.port_map 0o14 = 0 ∧
       s.mem.ioc.port_map 0o34 = 0 ∧
       s.mem.ioc.port_map 0o35 = 0 ∧
       s.read_chan 0o05 = 0 ∧
       s.read_chan 0o06 = 0 ∧
       s.read_chan 0o10 = 0 ∧
       s.read_chan 0o11 = 0 ∧
       s.read_chan 0o12 = 0 ∧
       s.read_chan 0o13 = 0 ∧
       s.read_chan 0o14 = 0 ∧
       s.mem.ioc.port_map 0o33 = 0o75777 ∧
       s.gint = false ∧
       s.is_irupt = false ∧
       (s.read REGISTER_COUNTER).1 = 0x800 ∧
       s.mem.ioc.port_map 0o163 &&& 0o200 = 0o200) := by
  have hstep : c.step =
      some (((({ c with unprog := rest }).update_cycles 2).handle_goj).1, 2) := by
    unfold Cpu.step
    rw [if_pos (by rw [h]; simp)]
    unfold Cpu.step_unprogrammed
    rw [h]
  constructor
  · rw [hstep]
    rfl
  · intro s n heq
    rw [hstep] at heq
    simp only [Option.some.injEq, Prod.mk.injEq] at heq
    obtain ⟨hs, hn⟩ := heq
    subst hs
    exact ⟨hn.symm, goj_spec _⟩

/-- C7 counterexample: after GOJ, reading channel 0o34 delegates to the
downlink peripheral (0o77777 when none is attached, as in the blank
configuration) and reading channel 0o33 returns the constant 0o77777
whose bit 0o02000 is set, so the claim about the values read is false. -/
theorem claim_C7_counterexample :
    (goj_cpu.step).isSome = true ∧
    ((goj_cpu.step).getD (goj_cpu, 0)).1.read_chan 0o34 = 0o77777 ∧
    ((goj_cpu.step).getD (goj_cpu, 0)).1.read_chan 0o33 &&& 0o02000 = 0o02000 := by
  refine ⟨?_, ?_, ?_⟩ <;> decide

/-- C7 witness on the blank machine with GOJ queued. -/
theorem claim_C7_witness :
    ((goj_cpu.step).getD (goj_cpu, 0)).1.mem.ioc.port_map 0o34 = 0 ∧
    ((goj_cpu.step).getD (goj_cpu, 0)).1.read_chan 0o05 = 0 ∧
    ((goj_cpu.step).getD (goj_cpu, 0)).1.gint = false ∧
    (((goj_cpu.step).getD (goj_cpu, 0)).1.read REGISTER_COUNTER).1 = 0x800 := by
  obtain ⟨hsome, hall⟩ := claim_C7_goj goj_cpu [] rfl
  obtain ⟨p, hp⟩ := Option.isSome_iff_exists.mp hsome
  obtain ⟨s, n⟩ := p
  have hprops := hall s n hp
  rw [hp]
  simp only [Option.getD_some]
  obtain ⟨hn, h05, h06, h10, h11, h12, h13, h14, h34, h35, r05, r06, r10, r11, r12,
    r13, r14, h33, hg, hi, hpc, h163⟩ := hprops
  exact ⟨h34, r05, hg, hpc⟩

end Ragc




